import Mathlib

/-!
Shallow embedding of the `ros2_batch_job` orchestration driver
(`src/ros2_batch_job/__main__.py`).

The driver is modelled as a deterministic state machine over `St`.
External commands are not executed: every `job.run(...)` call site
consults an `oracle` (mapping the index of the issued command to its
exit status) and records a `cmd` event in an execution trace.

The batch-job classes (`linux_batch`, `osx_batch`, `windows_batch`) and
the `util` helpers (`change_directory`, `clean_workspace`,
`generated_venv_vars`, the `run`/`python` execution bindings) are not in
the given source tree; where their behaviour matters it is modelled from
the specification and marked `Modelled from the spec:` in the doc
comment.
-/

/-- The three batch-job OS variants (tagged union of the spec's
`BatchJobVariant`). -/
inductive OS
  | linux
  | osx
  | windows
deriving DecidableEq, Repr

/-- String name the driver stores back into `args.os` for each variant
(lines 164, 168, 172 of `__main__.py`). -/
def osName : OS → String
  | OS.linux => "linux"
  | OS.osx => "osx"
  | OS.windows => "windows"

/-- The currently active execution binding (`job.run`).  `system` is the
binding installed at construction; `venv` is the binding pushed by
`job.push_run(venv)` when a virtual environment is entered.
Modelled from the spec: the execution-binding field of the
EnvironmentContext (the batch-job classes are not in the source tree). -/
inductive Binding
  | system
  | venv
deriving DecidableEq, Repr

/-- A label identifying the call site of each `job.run(...)` invocation
in `__main__.py` (trace instrumentation; the token list of each command
is recorded separately and mirrors the source). -/
inductive CmdKind
  | virtualenvInstall
  | venvCreate
  | pipSetuptools
  | printSetuptools
  | pipVersion
  | pipDeps
  | curlRepos
  | vcsImport
  | branchCreate
  | branchCheckout
  | branchRebase
  | vcsLog
  | amentBuild
  | amentTest
  | amentTestResults
deriving DecidableEq, Repr

/-- Observable side effects of one orchestration run, in issue order. -/
inductive Event
  | setEnvVar (name value : String)
  | cleanWorkspace (ws : String)
  | preHook (v : OS)
  | showEnvHook (v : OS)
  | setupEnvHook (v : OS)
  | cmd (kind : CmdKind) (binding : Binding) (python : String) (tokens : List String)
      (exit_on_error : Bool) (shell : Bool)
  | enterDir (d : String)
  | exitDir (d : String)
  | pushRunEvt
  | pushPythonEvt
  | readRepos
  | makeDirs (d : String)
  | logStatus (kind : CmdKind) (status : Nat)
deriving DecidableEq, Repr

/-- How a run terminated abnormally: `configExit` is the
`sys.exit("--do-venv is not supported on windows")` at line 177,
`fatalExit s` is the abort of a fatal command with exit status `s`
(spec section 4.2), `attrError` is the `AttributeError` raised by
`job.pre()` when no variant was selected and `job` is still `None`. -/
inductive Outcome
  | configExit (msg : String)
  | fatalExit (status : Nat)
  | attrError
deriving DecidableEq, Repr

/-- The parsed argument record (`argparse` namespace).  The four derived
path-name fields `workspace`/`sourcespace`/`buildspace`/`installspace`
do not exist until `run` assigns them (lines 157-160); they are modelled
as fields whose initial contents are arbitrary and overwritten by
`setDerivedPaths`. -/
structure Args where
  repo_file_url : String
  test_branch : Option String
  white_space_in : Option (List String)
  do_venv : Bool
  os : Option String
  connext : Bool
  isolated : Bool
  force_ansi_color : Bool
  ros1_path : Option String
  ament_args : List String
  workspace : String
  sourcespace : String
  buildspace : String
  installspace : String
deriving DecidableEq, Repr

/-- Full machine state of one orchestration run: the (mutated) argument
record, the selected batch-job variant, the abnormal-termination flag,
the event trace, the count of issued commands (indexing the exit-status
oracle), the environment-variable mapping, the current working
directory, and the active execution binding / interpreter path. -/
structure St where
  args : Args
  job : Option OS
  aborted : Option Outcome
  trace : List Event
  cmdCount : Nat
  env : List (String × String)
  cwd : String
  binding : Binding
  python : String
  sysExe : String
deriving DecidableEq, Repr

/-- `'"%s"' % s` — the quoting applied at the shell call sites. -/
def shQuote (s : String) : String := "\"" ++ s ++ "\""

/-- `os.path.join` for two components (POSIX separator). -/
def pathJoin (a b : String) : String := a ++ "/" ++ b

/-- Modelled from the spec: `generated_venv_vars(venv_path)` (in the
missing `util` module) yields the interpreter path of the virtual
environment rooted at `venv_path`. -/
def venvPythonOf (venv_path : String) : String :=
  pathJoin (pathJoin venv_path "bin") "python"

/-- The fixed auxiliary tooling list (lines 45-54). -/
def pip_dependencies : List String :=
  ["nose", "pep8", "pyflakes", "flake8", "mock", "coverage", "EmPy", "vcstool"]

/-- Lookup in the environment-variable mapping (`os.environ.get`). -/
def envGet : List (String × String) → String → Option String
  | [], _ => none
  | (k, v) :: rest, n => if k = n then some v else envGet rest n

/-- Assignment in the environment-variable mapping (`os.environ[n] = v`). -/
def envSet : List (String × String) → String → String → List (String × String)
  | [], n, v => [(n, v)]
  | (k, w) :: rest, n, v => if k = n then (n, v) :: rest else (k, w) :: envSet rest n v

/-- Lines 156-160: `args.white_space_in = args.white_space_in or []` and
the computation of the four derived path-name fields. -/
def setDerivedPaths (st : St) : St :=
  let l := st.args.white_space_in.getD []
  { st with args := { st.args with
      white_space_in := some l,
      workspace := if l.contains "workspace" then "work space" else "workspace",
      sourcespace := if l.contains "sourcespace" then "source space" else "src",
      buildspace := if l.contains "buildspace" then "build space" else "build",
      installspace := if l.contains "installspace" then "install space" else "install" } }

/-- `str.lower()` (ASCII case folding, as applied to
`platform.platform()`). -/
def strLower (s : String) : String := String.mk (s.data.map Char.toLower)

/-- `str.startswith(pre)`. -/
def strStartsWith (s pre : String) : Bool := pre.data.isPrefixOf s.data

/-- Lines 162-174: the variant-selection cascade.  Each branch fires on
an explicit `--os` override OR a platform-name prefix match, tested in
the order linux, osx, windows. -/
def selectOS (os : Option String) (platform_name : String) : Option OS :=
  if os == some "linux" || strStartsWith platform_name "linux" then some OS.linux
  else if os == some "osx" || strStartsWith platform_name "darwin" then some OS.osx
  else if os == some "windows" || strStartsWith platform_name "windows" then some OS.windows
  else none

/-- Lines 162-174: apply the selection cascade, storing the canonical OS
name back into `args.os` and the instantiated batch job into `job`
(which stays `None` if no branch matched). -/
def selectJob (platform_name : String) (st : St) : St :=
  match selectOS st.args.os platform_name with
  | some v => { st with job := some v, args := { st.args with os := some (osName v) } }
  | none => st

/-- Line 180: `os.environ['TERM'] = os.environ.get('TERM', 'xterm-256color')`. -/
def setEnvDefault (name dflt : String) (st : St) : St :=
  if st.aborted.isSome then st
  else
    let v := (envGet st.env name).getD dflt
    { st with env := envSet st.env name v, trace := st.trace ++ [Event.setEnvVar name v] }

/-- Line 184: `os.environ['ConEmuANSI'] = 'ON'`. -/
def setEnvVarStep (name v : String) (st : St) : St :=
  if st.aborted.isSome then st
  else { st with env := envSet st.env name v, trace := st.trace ++ [Event.setEnvVar name v] }

/-- Line 187: `clean_workspace(args.workspace)`.  Modelled from the
spec: `clean_workspace` (missing `util` module) removes and recreates
the workspace directory; only the fact of its invocation is observable
here. -/
def cleanWorkspaceStep (st : St) : St :=
  if st.aborted.isSome then st
  else { st with trace := st.trace ++ [Event.cleanWorkspace st.args.workspace] }

/-- Line 190: `job.pre()`.  When `job` is still `None`, attribute access
on `None` raises `AttributeError`. -/
def preStep (st : St) : St :=
  if st.aborted.isSome then st
  else
    match st.job with
    | some v => { st with trace := st.trace ++ [Event.preHook v] }
    | none => { st with aborted := some Outcome.attrError }

/-- Lines 192 and 209: `job.show_env()`. -/
def showEnvStep (st : St) : St :=
  if st.aborted.isSome then st
  else
    match st.job with
    | some v => { st with trace := st.trace ++ [Event.showEnvHook v] }
    | none => { st with aborted := some Outcome.attrError }

/-- Line 260: `job.setup_env()`. -/
def setupEnvStep (st : St) : St :=
  if st.aborted.isSome then st
  else
    match st.job with
    | some v => { st with trace := st.trace ++ [Event.setupEnvHook v] }
    | none => { st with aborted := some Outcome.attrError }

/-- One `job.run(tokens, exit_on_error=..., shell=...)` call.  The exit
status of the i-th issued command is `oracle i`.  Modelled from the
spec: the command executor (missing `util`/batch-job code) returns the
exit status, and when `exit_on_error` is true and the status is nonzero
it terminates the whole run with that status (spec section 4.2). -/
def jobRun (oracle : Nat → Nat) (kind : CmdKind) (tokens : List String)
    (exit_on_error shell : Bool) (st : St) : Nat × St :=
  if st.aborted.isSome then (0, st)
  else
    let status := oracle st.cmdCount
    let st1 : St := { st with
      trace := st.trace ++ [Event.cmd kind st.binding st.python tokens exit_on_error shell],
      cmdCount := st.cmdCount + 1 }
    if exit_on_error && status != 0 then
      (status, { st1 with aborted := some (Outcome.fatalExit status) })
    else (status, st1)

/-- Line 207: `job.push_run(venv)` replaces the active execution
binding.  Modelled from the spec: "push" denotes replacement of the one
active binding. -/
def pushRunStep (st : St) : St :=
  if st.aborted.isSome then st
  else { st with binding := Binding.venv, trace := st.trace ++ [Event.pushRunEvt] }

/-- Line 208: `job.push_python(venv_python)` replaces the active
interpreter path.  Modelled from the spec, as for `pushRunStep`. -/
def pushPythonStep (p : String) (st : St) : St :=
  if st.aborted.isSome then st
  else { st with python := p, trace := st.trace ++ [Event.pushPythonEvt] }

/-- Lines 223-225: log banner, open and print `ros2.repos`. -/
def readReposStep (st : St) : St :=
  if st.aborted.isSome then st
  else { st with trace := st.trace ++ [Event.readRepos] }

/-- Lines 227-228: `if not os.path.exists(args.sourcespace): os.makedirs(...)`. -/
def makeDirsStep (fsExists : String → Bool) (st : St) : St :=
  if st.aborted.isSome then st
  else if fsExists st.args.sourcespace then st
  else { st with trace := st.trace ++ [Event.makeDirs st.args.sourcespace] }

/-- Lines 134, 140, 248, 255: `info(... returned ...)` of a captured
exit status. -/
def logStatusStep (kind : CmdKind) (status : Nat) (st : St) : St :=
  if st.aborted.isSome then st
  else { st with trace := st.trace ++ [Event.logStatus kind status] }

/-- Line 201: `with change_directory(args.workspace):`.  Modelled from
the spec: the missing `util.change_directory` context manager saves the
current directory, enters `d`, and restores the saved directory on
every exit path out of the block (including error propagation). -/
def change_directory (d : String) (body : St → Nat × St) (st : St) : Nat × St :=
  if st.aborted.isSome then (0, st)
  else
    let saved := st.cwd
    let entered := pathJoin st.cwd d
    let st1 : St := { st with cwd := entered, trace := st.trace ++ [Event.enterDir entered] }
    let r := body st1
    (r.1, { r.2 with cwd := saved, trace := r.2.trace ++ [Event.exitDir saved] })

/-- Lines 203-209: the virtual-environment entry block (create the
venv, rebind `job.run` and `job.python` to it, show the environment). -/
def enterVenv (oracle : Nat → Nat) (st : St) : St :=
  let st1 := (jobRun oracle CmdKind.venvCreate
    [st.sysExe, "-m", "virtualenv", "-p", st.sysExe, "venv"] true false st).2
  let venv_path := pathJoin st1.cwd "venv"
  let st2 := pushRunStep st1
  let st3 := pushPythonStep (venvPythonOf venv_path) st2
  showEnvStep st3

/-- Lines 231-234: the `vcs` invocation prefix — through the venv
interpreter in venv mode, the plain tool otherwise. -/
def vcsCmdOf (st : St) : List String :=
  if st.args.do_venv then
    [shQuote st.python, shQuote (pathJoin (pathJoin (pathJoin st.cwd "venv") "bin") "vcs")]
  else ["vcs"]

/-- Lines 237-256: the optional test-branch section — tag the default
branches as `__ci_default` (fatal), switch to the target branch
(non-fatal, status logged), rebase onto `__ci_default` (fatal, status
logged on success). -/
def branchSteps (oracle : Nat → Nat) (vcs_cmd : List String) (st : St) : St :=
  match st.args.test_branch with
  | none => st
  | some tb =>
    let st1 := (jobRun oracle CmdKind.branchCreate
      (vcs_cmd ++ ["custom", ".", "--git", "--args", "checkout", "-b", "__ci_default"])
      true true st).2
    let r := jobRun oracle CmdKind.branchCheckout
      (vcs_cmd ++ ["custom", ".", "--args", "checkout", tb]) false false st1
    let st2 := logStatusStep CmdKind.branchCheckout r.1 r.2
    let r2 := jobRun oracle CmdKind.branchRebase
      (vcs_cmd ++ ["custom", ".", "--git", "--args", "rebase", "__ci_default"]) true false st2
    logStatusStep CmdKind.branchRebase r2.1 r2.2

/-- Lines 211-262 minus the venv block: the steps inside the workspace
after the (optional) virtual environment is entered. -/
def insideMain (oracle : Nat → Nat) (fsExists : String → Bool) (bf : St → Nat × St)
    (st : St) : Nat × St :=
  let stA := (jobRun oracle CmdKind.pipSetuptools
    [shQuote st.python, "-m", "pip", "install", "-U", "pip", "setuptools"] true true st).2
  let stB := (jobRun oracle CmdKind.printSetuptools
    [shQuote stA.python, "-c", shQuote "import setuptools; print(setuptools.__version__)"]
    true true stA).2
  let stC := (jobRun oracle CmdKind.pipVersion
    [shQuote stB.python, "-m", "pip", "--version"] true true stB).2
  let stD := (jobRun oracle CmdKind.pipDeps
    ([shQuote stC.python, "-m", "pip", "install", "-U"] ++ pip_dependencies) true true stC).2
  let stE := (jobRun oracle CmdKind.curlRepos
    ["curl", "-sk", stD.args.repo_file_url, "-o", "ros2.repos"] true false stD).2
  let stF := readReposStep stE
  let stG := makeDirsStep fsExists stF
  let vcs_cmd := vcsCmdOf stG
  let stH := (jobRun oracle CmdKind.vcsImport
    (vcs_cmd ++ ["import", shQuote stG.args.sourcespace, "--input", "ros2.repos"]) true true stG).2
  let stI := branchSteps oracle vcs_cmd stH
  let stJ := (jobRun oracle CmdKind.vcsLog
    (vcs_cmd ++ ["log", "-l1", shQuote stI.args.sourcespace]) true true stI).2
  let stK := setupEnvStep stJ
  bf stK

/-- Lines 202-262: the body of the `with change_directory(...)` block. -/
def insideWorkspace (oracle : Nat → Nat) (fsExists : String → Bool) (bf : St → Nat × St)
    (st : St) : Nat × St :=
  let st1 := if st.args.do_venv then enterVenv oracle st else st
  insideMain oracle fsExists bf st1

/-- Lines 113-143: `build_and_test(args, job)` — ament build (fatal),
ament test (non-fatal, status logged), ament test_results (non-fatal,
status logged), fixed return value `0`. -/
def build_and_test (oracle : Nat → Nat) (st : St) : Nat × St :=
  let ament_py := shQuote (pathJoin (pathJoin (pathJoin (pathJoin
    (pathJoin "." st.args.sourcespace) "ament") "ament_tools") "scripts") "ament.py")
  let st1 := (jobRun oracle CmdKind.amentBuild
    ([shQuote st.python, "-u", ament_py, "build", "--build-tests",
      "--build-space", shQuote st.args.buildspace,
      "--install-space", shQuote st.args.installspace,
      shQuote st.args.sourcespace]
     ++ (if st.args.isolated then ["--isolated"] else []) ++ st.args.ament_args)
    true true st).2
  let r := jobRun oracle CmdKind.amentTest
    ([shQuote st1.python, "-u", ament_py, "test",
      "--build-space", shQuote st1.args.buildspace,
      "--install-space", shQuote st1.args.installspace,
      "--skip-build", "--skip-install", shQuote st1.args.sourcespace]
     ++ (if st1.args.isolated then ["--isolated"] else []) ++ st1.args.ament_args)
    false true st1
  let st2 := logStatusStep CmdKind.amentTest r.1 r.2
  let r2 := jobRun oracle CmdKind.amentTestResults
    [shQuote st2.python, "-u", ament_py, "test_results", shQuote st2.args.buildspace]
    false true st2
  let st3 := logStatusStep CmdKind.amentTestResults r2.1 r2.2
  (0, st3)

/-- Lines 146-262: `run(args, build_function)`. -/
def run (oracle : Nat → Nat) (fsExists : String → Bool) (bf : St → Nat × St)
    (platformRaw : String) (st0 : St) : Nat × St :=
  let stA := setDerivedPaths st0
  let platform_name := strLower platformRaw
  let stB := selectJob platform_name stA
  if stB.args.do_venv && stB.args.os == some "windows" then
    (0, { stB with aborted := some (Outcome.configExit "--do-venv is not supported on windows") })
  else
    let stC := setEnvDefault "TERM" "xterm-256color" stB
    let stD := if stC.args.os == some "windows" then setEnvVarStep "ConEmuANSI" "ON" stC else stC
    let stE := cleanWorkspaceStep stD
    let stF := preStep stE
    let stG := showEnvStep stF
    let stH := if stG.args.os != some "linux" then
        (jobRun oracle CmdKind.virtualenvInstall
          [stG.sysExe, "-m", "pip", "install", "-U", "virtualenv"] true false stG).2
      else stG
    change_directory stH.args.workspace (insideWorkspace oracle fsExists bf) stH

/-- The state at process start: nothing issued, no variant selected,
the system interpreter (`sys.executable`) active. -/
def initSt (cfg : Args) (sysExe cwd0 : String) (env0 : List (String × String)) : St :=
  { args := cfg, job := none, aborted := none, trace := [], cmdCount := 0,
    env := env0, cwd := cwd0, binding := Binding.system, python := sysExe, sysExe := sysExe }

/-- `main`: `run(args, build_and_test)` from a fresh process state. -/
def runFull (oracle : Nat → Nat) (fsExists : String → Bool) (cfg : Args)
    (platformRaw sysExe cwd0 : String) (env0 : List (String × String)) : Nat × St :=
  run oracle fsExists (build_and_test oracle) platformRaw (initSt cfg sysExe cwd0 env0)

/-! ### Trace observers -/

/-- Is this event a subprocess invocation? -/
def isCmdE : Event → Bool
  | Event.cmd _ _ _ _ _ _ => true
  | _ => false

/-- The subsequence of subprocess invocations of a trace, in issue
order.  The i-th element was issued with exit status `oracle i`. -/
def cmds (tr : List Event) : List Event := tr.filter isCmdE

/-- Is this event one of the three test-branch subprocess invocations? -/
def isBranchCmdE : Event → Bool
  | Event.cmd CmdKind.branchCreate _ _ _ _ _ => true
  | Event.cmd CmdKind.branchCheckout _ _ _ _ _ => true
  | Event.cmd CmdKind.branchRebase _ _ _ _ _ => true
  | _ => false

/-- The subsequence of test-branch subprocess invocations of a trace. -/
def branchCmds (tr : List Event) : List Event := tr.filter isBranchCmdE

/-- Is this event the virtualenv-tooling installation command? -/
def isVenvInstallE : Event → Bool
  | Event.cmd CmdKind.virtualenvInstall _ _ _ _ _ => true
  | _ => false

/-- The subsequence of virtualenv-tooling installation commands. -/
def venvInstallCmds (tr : List Event) : List Event := tr.filter isVenvInstallE

/-- Was this command issued with `exit_on_error` (fatal) semantics?
(`true` for non-command events never arises below `cmds`.) -/
def cmdFatal : Event → Bool
  | Event.cmd _ _ _ _ e _ => e
  | _ => false

/-- A command event was issued under execution binding `b` and
interpreter path `p`; trivially true of non-command events. -/
def cmdBoundTo (b : Binding) (p : String) : Event → Bool
  | Event.cmd _ bi py _ _ _ => bi == b && py == p
  | _ => true

/-! ### Shared concrete inputs for witnesses and counterexamples -/

/-- A representative parsed configuration (all options at their
argparse defaults). -/
def cfgBase : Args :=
  { repo_file_url := "https://raw.githubusercontent.com/ros2/ros2/master/ros2.repos",
    test_branch := none, white_space_in := none, do_venv := false, os := none,
    connext := false, isolated := false, force_ansi_color := false, ros1_path := none,
    ament_args := [], workspace := "", sourcespace := "", buildspace := "",
    installspace := "" }

/-- A representative mid-run state (fresh process state for `cfgBase`). -/
def stBase : St := initSt cfgBase "/usr/bin/python3" "/ci" []

/-- An exit-status oracle on which only the first command succeeds. -/
def testOracle : Nat → Nat := fun i => if i = 0 then 0 else 7

/-- From state `s1` the run reached `s2` while keeping the active
execution binding and interpreter path, and every command event issued
in between was issued under that binding and path. -/
def BoundFrom (s1 s2 : St) : Prop :=
  s2.binding = s1.binding ∧ s2.python = s1.python ∧
  ∃ n, s2.trace = s1.trace ++ n ∧ n.all (cmdBoundTo s1.binding s1.python) = true

/-- The trace of `s2` extends the trace of `s1`. -/
def Extends (s1 s2 : St) : Prop := ∃ n, s2.trace = s1.trace ++ n

/-- The i-th issued command of a trace (defaulting to a harmless
non-command event out of range). -/
def cmdAt (tr : List Event) (i : Nat) : Event := (cmds tr).getD i Event.readRepos

/-- Invariant relating a state's trace to the exit-status oracle: the
command counter counts the issued commands, and any fatal
(`exit_on_error`) command that received a nonzero status is the last
command ever issued, with the run aborted on exactly that status. -/
def CmdsSpec (oracle : Nat → Nat) (st : St) : Prop :=
  (cmds st.trace).length = st.cmdCount ∧
  ∀ i, i < (cmds st.trace).length → cmdFatal (cmdAt st.trace i) = true →
    oracle i ≠ 0 → i + 1 = st.cmdCount ∧ st.aborted = some (Outcome.fatalExit (oracle i))

/-- A concrete state with a test-branch override, for the C6 witness. -/
def stBranch : St :=
  initSt { cfgBase with test_branch := some "release-x" } "/usr/bin/python3" "/ci" []

/-- An exit-status oracle failing exactly the second command (the
non-fatal branch switch), for the C6 witness. -/
def branchOracle : Nat → Nat := fun j => if j = 1 then 5 else 0

/-! ### Per-operation lemmas: projections preserved by each step -/

theorem setEnvDefault_args (n d : String) (st : St) : (setEnvDefault n d st).args = st.args := by
  unfold setEnvDefault; split <;> rfl

theorem setEnvVarStep_args (n v : String) (st : St) : (setEnvVarStep n v st).args = st.args := by
  unfold setEnvVarStep; split <;> rfl

theorem cleanWorkspaceStep_args (st : St) : (cleanWorkspaceStep st).args = st.args := by
  unfold cleanWorkspaceStep; split <;> rfl

theorem preStep_args (st : St) : (preStep st).args = st.args := by
  unfold preStep; split
  · rfl
  · split <;> rfl

theorem showEnvStep_args (st : St) : (showEnvStep st).args = st.args := by
  unfold showEnvStep; split
  · rfl
  · split <;> rfl

theorem setupEnvStep_args (st : St) : (setupEnvStep st).args = st.args := by
  unfold setupEnvStep; split
  · rfl
  · split <;> rfl

theorem pushRunStep_args (st : St) : (pushRunStep st).args = st.args := by
  unfold pushRunStep; split <;> rfl

theorem pushPythonStep_args (p : String) (st : St) : (pushPythonStep p st).args = st.args := by
  unfold pushPythonStep; split <;> rfl

theorem readReposStep_args (st : St) : (readReposStep st).args = st.args := by
  unfold readReposStep; split <;> rfl

theorem makeDirsStep_args (fE : String → Bool) (st : St) :
    (makeDirsStep fE st).args = st.args := by
  unfold makeDirsStep; split
  · rfl
  · split <;> rfl

theorem logStatusStep_args (k : CmdKind) (s : Nat) (st : St) :
    (logStatusStep k s st).args = st.args := by
  unfold logStatusStep; split <;> rfl

theorem jobRun_args (oracle : Nat → Nat) (k : CmdKind) (tok : List String) (eo sh : Bool)
    (st : St) : ((jobRun oracle k tok eo sh st).2).args = st.args := by
  unfold jobRun; split
  · rfl
  · dsimp only; split <;> rfl

theorem setEnvDefault_job (n d : String) (st : St) : (setEnvDefault n d st).job = st.job := by
  unfold setEnvDefault; split <;> rfl

theorem setEnvVarStep_job (n v : String) (st : St) : (setEnvVarStep n v st).job = st.job := by
  unfold setEnvVarStep; split <;> rfl

theorem cleanWorkspaceStep_job (st : St) : (cleanWorkspaceStep st).job = st.job := by
  unfold cleanWorkspaceStep; split <;> rfl

theorem preStep_job (st : St) : (preStep st).job = st.job := by
  unfold preStep; split
  · rfl
  · split <;> rfl

theorem showEnvStep_job (st : St) : (showEnvStep st).job = st.job := by
  unfold showEnvStep; split
  · rfl
  · split <;> rfl

theorem setupEnvStep_job (st : St) : (setupEnvStep st).job = st.job := by
  unfold setupEnvStep; split
  · rfl
  · split <;> rfl

theorem pushRunStep_job (st : St) : (pushRunStep st).job = st.job := by
  unfold pushRunStep; split <;> rfl

theorem pushPythonStep_job (p : String) (st : St) : (pushPythonStep p st).job = st.job := by
  unfold pushPythonStep; split <;> rfl

theorem readReposStep_job (st : St) : (readReposStep st).job = st.job := by
  unfold readReposStep; split <;> rfl

theorem makeDirsStep_job (fE : String → Bool) (st : St) : (makeDirsStep fE st).job = st.job := by
  unfold makeDirsStep; split
  · rfl
  · split <;> rfl

theorem logStatusStep_job (k : CmdKind) (s : Nat) (st : St) :
    (logStatusStep k s st).job = st.job := by
  unfold logStatusStep; split <;> rfl

theorem jobRun_job (oracle : Nat → Nat) (k : CmdKind) (tok : List String) (eo sh : Bool)
    (st : St) : ((jobRun oracle k tok eo sh st).2).job = st.job := by
  unfold jobRun; split
  · rfl
  · dsimp only; split <;> rfl

theorem setEnvDefault_cwd (n d : String) (st : St) : (setEnvDefault n d st).cwd = st.cwd := by
  unfold setEnvDefault; split <;> rfl

theorem setEnvVarStep_cwd (n v : String) (st : St) : (setEnvVarStep n v st).cwd = st.cwd := by
  unfold setEnvVarStep; split <;> rfl

theorem cleanWorkspaceStep_cwd (st : St) : (cleanWorkspaceStep st).cwd = st.cwd := by
  unfold cleanWorkspaceStep; split <;> rfl

theorem preStep_cwd (st : St) : (preStep st).cwd = st.cwd := by
  unfold preStep; split
  · rfl
  · split <;> rfl

theorem showEnvStep_cwd (st : St) : (showEnvStep st).cwd = st.cwd := by
  unfold showEnvStep; split
  · rfl
  · split <;> rfl

theorem jobRun_cwd (oracle : Nat → Nat) (k : CmdKind) (tok : List String) (eo sh : Bool)
    (st : St) : ((jobRun oracle k tok eo sh st).2).cwd = st.cwd := by
  unfold jobRun; split
  · rfl
  · dsimp only; split <;> rfl

theorem setDerivedPaths_cwd (st : St) : (setDerivedPaths st).cwd = st.cwd := rfl

theorem selectJob_cwd (p : String) (st : St) : (selectJob p st).cwd = st.cwd := by
  unfold selectJob; split <;> rfl

theorem selectJob_job (p : String) (st : St) :
    st.job = none → (selectJob p st).job = selectOS st.args.os p := by
  intro h; unfold selectJob
  cases hsel : selectOS st.args.os p <;> simp [hsel, h]

/-! ### Per-operation lemmas: command counter and abort flag -/

theorem setEnvDefault_cmdCount (n d : String) (st : St) :
    (setEnvDefault n d st).cmdCount = st.cmdCount := by
  unfold setEnvDefault; split <;> rfl

theorem setEnvVarStep_cmdCount (n v : String) (st : St) :
    (setEnvVarStep n v st).cmdCount = st.cmdCount := by
  unfold setEnvVarStep; split <;> rfl

theorem cleanWorkspaceStep_cmdCount (st : St) :
    (cleanWorkspaceStep st).cmdCount = st.cmdCount := by
  unfold cleanWorkspaceStep; split <;> rfl

theorem preStep_cmdCount (st : St) : (preStep st).cmdCount = st.cmdCount := by
  unfold preStep; split
  · rfl
  · split <;> rfl

theorem showEnvStep_cmdCount (st : St) : (showEnvStep st).cmdCount = st.cmdCount := by
  unfold showEnvStep; split
  · rfl
  · split <;> rfl

theorem setupEnvStep_cmdCount (st : St) : (setupEnvStep st).cmdCount = st.cmdCount := by
  unfold setupEnvStep; split
  · rfl
  · split <;> rfl

theorem pushRunStep_cmdCount (st : St) : (pushRunStep st).cmdCount = st.cmdCount := by
  unfold pushRunStep; split <;> rfl

theorem pushPythonStep_cmdCount (p : String) (st : St) :
    (pushPythonStep p st).cmdCount = st.cmdCount := by
  unfold pushPythonStep; split <;> rfl

theorem readReposStep_cmdCount (st : St) : (readReposStep st).cmdCount = st.cmdCount := by
  unfold readReposStep; split <;> rfl

theorem makeDirsStep_cmdCount (fE : String → Bool) (st : St) :
    (makeDirsStep fE st).cmdCount = st.cmdCount := by
  unfold makeDirsStep; split
  · rfl
  · split <;> rfl

theorem logStatusStep_cmdCount (k : CmdKind) (s : Nat) (st : St) :
    (logStatusStep k s st).cmdCount = st.cmdCount := by
  unfold logStatusStep; split <;> rfl

theorem setEnvDefault_of_aborted (n d : String) (st : St) (o : Outcome)
    (h : st.aborted = some o) : setEnvDefault n d st = st := by
  unfold setEnvDefault; simp [h]

theorem setEnvVarStep_of_aborted (n v : String) (st : St) (o : Outcome)
    (h : st.aborted = some o) : setEnvVarStep n v st = st := by
  unfold setEnvVarStep; simp [h]

theorem cleanWorkspaceStep_of_aborted (st : St) (o : Outcome)
    (h : st.aborted = some o) : cleanWorkspaceStep st = st := by
  unfold cleanWorkspaceStep; simp [h]

theorem preStep_of_aborted (st : St) (o : Outcome)
    (h : st.aborted = some o) : preStep st = st := by
  unfold preStep; simp [h]

theorem showEnvStep_of_aborted (st : St) (o : Outcome)
    (h : st.aborted = some o) : showEnvStep st = st := by
  unfold showEnvStep; simp [h]

theorem setupEnvStep_of_aborted (st : St) (o : Outcome)
    (h : st.aborted = some o) : setupEnvStep st = st := by
  unfold setupEnvStep; simp [h]

theorem pushRunStep_of_aborted (st : St) (o : Outcome)
    (h : st.aborted = some o) : pushRunStep st = st := by
  unfold pushRunStep; simp [h]

theorem pushPythonStep_of_aborted (p : String) (st : St) (o : Outcome)
    (h : st.aborted = some o) : pushPythonStep p st = st := by
  unfold pushPythonStep; simp [h]

theorem readReposStep_of_aborted (st : St) (o : Outcome)
    (h : st.aborted = some o) : readReposStep st = st := by
  unfold readReposStep; simp [h]

theorem makeDirsStep_of_aborted (fE : String → Bool) (st : St) (o : Outcome)
    (h : st.aborted = some o) : makeDirsStep fE st = st := by
  unfold makeDirsStep; simp [h]

theorem logStatusStep_of_aborted (k : CmdKind) (s : Nat) (st : St) (o : Outcome)
    (h : st.aborted = some o) : logStatusStep k s st = st := by
  unfold logStatusStep; simp [h]

theorem jobRun_of_aborted (oracle : Nat → Nat) (k : CmdKind) (tok : List String) (eo sh : Bool)
    (st : St) (o : Outcome) (h : st.aborted = some o) :
    jobRun oracle k tok eo sh st = (0, st) := by
  unfold jobRun; simp [h]

/-! ### Trace-shape lemmas: what each step appends -/

/-- A branch command is in particular a command. -/
theorem isCmdE_of_isBranchCmdE (e : Event) (h : isBranchCmdE e = true) : isCmdE e = true := by
  cases e <;> simp_all [isBranchCmdE, isCmdE]

/-- The virtualenv-install command is in particular a command. -/
theorem isCmdE_of_isVenvInstallE (e : Event) (h : isVenvInstallE e = true) : isCmdE e = true := by
  cases e <;> simp_all [isVenvInstallE, isCmdE]

theorem setEnvDefault_shape (n d : String) (st : St) :
    (setEnvDefault n d st).trace = st.trace ∨
    ∃ e, (setEnvDefault n d st).trace = st.trace ++ [e] ∧ isCmdE e = false := by
  unfold setEnvDefault; split
  · exact Or.inl rfl
  · exact Or.inr ⟨_, rfl, rfl⟩

theorem setEnvVarStep_shape (n v : String) (st : St) :
    (setEnvVarStep n v st).trace = st.trace ∨
    ∃ e, (setEnvVarStep n v st).trace = st.trace ++ [e] ∧ isCmdE e = false := by
  unfold setEnvVarStep; split
  · exact Or.inl rfl
  · exact Or.inr ⟨_, rfl, rfl⟩

theorem cleanWorkspaceStep_shape (st : St) :
    (cleanWorkspaceStep st).trace = st.trace ∨
    ∃ e, (cleanWorkspaceStep st).trace = st.trace ++ [e] ∧ isCmdE e = false := by
  unfold cleanWorkspaceStep; split
  · exact Or.inl rfl
  · exact Or.inr ⟨_, rfl, rfl⟩

theorem preStep_shape (st : St) :
    (preStep st).trace = st.trace ∨
    ∃ e, (preStep st).trace = st.trace ++ [e] ∧ isCmdE e = false := by
  unfold preStep; split
  · exact Or.inl rfl
  · split
    · exact Or.inr ⟨_, rfl, rfl⟩
    · exact Or.inl rfl

theorem showEnvStep_shape (st : St) :
    (showEnvStep st).trace = st.trace ∨
    ∃ e, (showEnvStep st).trace = st.trace ++ [e] ∧ isCmdE e = false := by
  unfold showEnvStep; split
  · exact Or.inl rfl
  · split
    · exact Or.inr ⟨_, rfl, rfl⟩
    · exact Or.inl rfl

theorem setupEnvStep_shape (st : St) :
    (setupEnvStep st).trace = st.trace ∨
    ∃ e, (setupEnvStep st).trace = st.trace ++ [e] ∧ isCmdE e = false := by
  unfold setupEnvStep; split
  · exact Or.inl rfl
  · split
    · exact Or.inr ⟨_, rfl, rfl⟩
    · exact Or.inl rfl

theorem pushRunStep_shape (st : St) :
    (pushRunStep st).trace = st.trace ∨
    ∃ e, (pushRunStep st).trace = st.trace ++ [e] ∧ isCmdE e = false := by
  unfold pushRunStep; split
  · exact Or.inl rfl
  · exact Or.inr ⟨_, rfl, rfl⟩

theorem pushPythonStep_shape (p : String) (st : St) :
    (pushPythonStep p st).trace = st.trace ∨
    ∃ e, (pushPythonStep p st).trace = st.trace ++ [e] ∧ isCmdE e = false := by
  unfold pushPythonStep; split
  · exact Or.inl rfl
  · exact Or.inr ⟨_, rfl, rfl⟩

theorem readReposStep_shape (st : St) :
    (readReposStep st).trace = st.trace ∨
    ∃ e, (readReposStep st).trace = st.trace ++ [e] ∧ isCmdE e = false := by
  unfold readReposStep; split
  · exact Or.inl rfl
  · exact Or.inr ⟨_, rfl, rfl⟩

theorem makeDirsStep_shape (fE : String → Bool) (st : St) :
    (makeDirsStep fE st).trace = st.trace ∨
    ∃ e, (makeDirsStep fE st).trace = st.trace ++ [e] ∧ isCmdE e = false := by
  unfold makeDirsStep; split
  · exact Or.inl rfl
  · split
    · exact Or.inl rfl
    · exact Or.inr ⟨_, rfl, rfl⟩

theorem logStatusStep_shape (k : CmdKind) (s : Nat) (st : St) :
    (logStatusStep k s st).trace = st.trace ∨
    ∃ e, (logStatusStep k s st).trace = st.trace ++ [e] ∧ isCmdE e = false := by
  unfold logStatusStep; split
  · exact Or.inl rfl
  · exact Or.inr ⟨_, rfl, rfl⟩

theorem jobRun_shape (oracle : Nat → Nat) (k : CmdKind) (tok : List String) (eo sh : Bool)
    (st : St) :
    ((jobRun oracle k tok eo sh st).2).trace = st.trace ∨
    ((jobRun oracle k tok eo sh st).2).trace
      = st.trace ++ [Event.cmd k st.binding st.python tok eo sh] := by
  unfold jobRun; split
  · exact Or.inl rfl
  · dsimp only; split
    · exact Or.inr rfl
    · exact Or.inr rfl

/-- A step that appends no command event leaves every command-selecting
filter of the trace unchanged. -/
theorem filter_of_noncmd_shape (p : Event → Bool) (hp : ∀ e, p e = true → isCmdE e = true)
    (s1 s2 : St)
    (hsh : s2.trace = s1.trace ∨ ∃ e, s2.trace = s1.trace ++ [e] ∧ isCmdE e = false) :
    s2.trace.filter p = s1.trace.filter p := by
  rcases hsh with h | ⟨e, h, he⟩
  · rw [h]
  · rw [h, List.filter_append]
    have hpe : p e = false := by
      cases hpe : p e
      · rfl
      · rw [hp e hpe] at he; cases he
    simp [List.filter, hpe]

/-! ### Binding-stability machinery (claim about the venv rebind) -/



theorem boundFrom_refl (s : St) : BoundFrom s s :=
  ⟨rfl, rfl, [], by simp, by simp⟩

theorem boundFrom_trans {s1 s2 s3 : St} (h12 : BoundFrom s1 s2) (h23 : BoundFrom s2 s3) :
    BoundFrom s1 s3 := by
  obtain ⟨hb1, hp1, n1, ht1, ha1⟩ := h12
  obtain ⟨hb2, hp2, n2, ht2, ha2⟩ := h23
  refine ⟨hb2.trans hb1, hp2.trans hp1, n1 ++ n2, ?_, ?_⟩
  · rw [ht2, ht1, List.append_assoc]
  · rw [hb1, hp1] at ha2
    rw [List.all_append, ha1, ha2]; rfl

theorem boundFrom_of_shape (s1 s2 : St) (hb : s2.binding = s1.binding)
    (hp : s2.python = s1.python)
    (hsh : s2.trace = s1.trace ∨ ∃ e, s2.trace = s1.trace ++ [e] ∧ isCmdE e = false) :
    BoundFrom s1 s2 := by
  refine ⟨hb, hp, ?_⟩
  rcases hsh with h | ⟨e, h, he⟩
  · exact ⟨[], by simp [h], by simp⟩
  · refine ⟨[e], h, ?_⟩
    cases e <;> simp_all [isCmdE, cmdBoundTo]

theorem setEnvDefault_binding (n d : String) (st : St) :
    (setEnvDefault n d st).binding = st.binding := by
  unfold setEnvDefault; split <;> rfl

theorem setEnvDefault_python (n d : String) (st : St) :
    (setEnvDefault n d st).python = st.python := by
  unfold setEnvDefault; split <;> rfl

theorem showEnvStep_binding (st : St) : (showEnvStep st).binding = st.binding := by
  unfold showEnvStep; split
  · rfl
  · split <;> rfl

theorem showEnvStep_python (st : St) : (showEnvStep st).python = st.python := by
  unfold showEnvStep; split
  · rfl
  · split <;> rfl

theorem setupEnvStep_binding (st : St) : (setupEnvStep st).binding = st.binding := by
  unfold setupEnvStep; split
  · rfl
  · split <;> rfl

theorem setupEnvStep_python (st : St) : (setupEnvStep st).python = st.python := by
  unfold setupEnvStep; split
  · rfl
  · split <;> rfl

theorem readReposStep_binding (st : St) : (readReposStep st).binding = st.binding := by
  unfold readReposStep; split <;> rfl

theorem readReposStep_python (st : St) : (readReposStep st).python = st.python := by
  unfold readReposStep; split <;> rfl

theorem makeDirsStep_binding (fE : String → Bool) (st : St) :
    (makeDirsStep fE st).binding = st.binding := by
  unfold makeDirsStep; split
  · rfl
  · split <;> rfl

theorem makeDirsStep_python (fE : String → Bool) (st : St) :
    (makeDirsStep fE st).python = st.python := by
  unfold makeDirsStep; split
  · rfl
  · split <;> rfl

theorem logStatusStep_binding (k : CmdKind) (s : Nat) (st : St) :
    (logStatusStep k s st).binding = st.binding := by
  unfold logStatusStep; split <;> rfl

theorem logStatusStep_python (k : CmdKind) (s : Nat) (st : St) :
    (logStatusStep k s st).python = st.python := by
  unfold logStatusStep; split <;> rfl

theorem jobRun_binding (oracle : Nat → Nat) (k : CmdKind) (tok : List String) (eo sh : Bool)
    (st : St) : ((jobRun oracle k tok eo sh st).2).binding = st.binding := by
  unfold jobRun; split
  · rfl
  · dsimp only; split <;> rfl

theorem jobRun_python (oracle : Nat → Nat) (k : CmdKind) (tok : List String) (eo sh : Bool)
    (st : St) : ((jobRun oracle k tok eo sh st).2).python = st.python := by
  unfold jobRun; split
  · rfl
  · dsimp only; split <;> rfl

theorem jobRun_bound (oracle : Nat → Nat) (k : CmdKind) (tok : List String) (eo sh : Bool)
    (st : St) : BoundFrom st ((jobRun oracle k tok eo sh st).2) := by
  refine ⟨jobRun_binding oracle k tok eo sh st, jobRun_python oracle k tok eo sh st, ?_⟩
  rcases jobRun_shape oracle k tok eo sh st with h | h
  · exact ⟨[], by simp [h], by simp⟩
  · exact ⟨[Event.cmd k st.binding st.python tok eo sh], h, by simp [cmdBoundTo]⟩

theorem showEnvStep_bound (st : St) : BoundFrom st (showEnvStep st) :=
  boundFrom_of_shape st _ (showEnvStep_binding st) (showEnvStep_python st) (showEnvStep_shape st)

theorem setupEnvStep_bound (st : St) : BoundFrom st (setupEnvStep st) :=
  boundFrom_of_shape st _ (setupEnvStep_binding st) (setupEnvStep_python st) (setupEnvStep_shape st)

theorem readReposStep_bound (st : St) : BoundFrom st (readReposStep st) :=
  boundFrom_of_shape st _ (readReposStep_binding st) (readReposStep_python st) (readReposStep_shape st)

theorem makeDirsStep_bound (fE : String → Bool) (st : St) : BoundFrom st (makeDirsStep fE st) :=
  boundFrom_of_shape st _ (makeDirsStep_binding fE st) (makeDirsStep_python fE st)
    (makeDirsStep_shape fE st)

theorem logStatusStep_bound (k : CmdKind) (s : Nat) (st : St) :
    BoundFrom st (logStatusStep k s st) :=
  boundFrom_of_shape st _ (logStatusStep_binding k s st) (logStatusStep_python k s st)
    (logStatusStep_shape k s st)

theorem branchSteps_bound (oracle : Nat → Nat) (vcs_cmd : List String) (st : St) :
    BoundFrom st (branchSteps oracle vcs_cmd st) := by
  unfold branchSteps
  cases st.args.test_branch
  · exact boundFrom_refl st
  · exact boundFrom_trans (jobRun_bound _ _ _ _ _ _)
      (boundFrom_trans (jobRun_bound _ _ _ _ _ _)
        (boundFrom_trans (logStatusStep_bound _ _ _)
          (boundFrom_trans (jobRun_bound _ _ _ _ _ _) (logStatusStep_bound _ _ _))))

theorem build_and_test_bound (oracle : Nat → Nat) (st : St) :
    BoundFrom st ((build_and_test oracle st).2) := by
  unfold build_and_test
  exact boundFrom_trans (jobRun_bound _ _ _ _ _ _)
    (boundFrom_trans (jobRun_bound _ _ _ _ _ _)
      (boundFrom_trans (logStatusStep_bound _ _ _)
        (boundFrom_trans (jobRun_bound _ _ _ _ _ _) (logStatusStep_bound _ _ _))))

theorem insideMain_bound (oracle : Nat → Nat) (fE : String → Bool) (bf : St → Nat × St)
    (hbf : ∀ s, BoundFrom s ((bf s).2)) (st : St) :
    BoundFrom st ((insideMain oracle fE bf st).2) := by
  unfold insideMain
  exact boundFrom_trans (jobRun_bound _ _ _ _ _ _)
    (boundFrom_trans (jobRun_bound _ _ _ _ _ _)
      (boundFrom_trans (jobRun_bound _ _ _ _ _ _)
        (boundFrom_trans (jobRun_bound _ _ _ _ _ _)
          (boundFrom_trans (jobRun_bound _ _ _ _ _ _)
            (boundFrom_trans (readReposStep_bound _)
              (boundFrom_trans (makeDirsStep_bound _ _)
                (boundFrom_trans (jobRun_bound _ _ _ _ _ _)
                  (boundFrom_trans (branchSteps_bound _ _ _)
                    (boundFrom_trans (jobRun_bound _ _ _ _ _ _)
                      (boundFrom_trans (setupEnvStep_bound _) (hbf _)))))))))))



/-! ### C2: build_and_test policy -/

/-- C2: for every state and every combination of exit statuses of the
test-mode and results-collection invocations, `build_and_test` returns
`0`: it issues the build-mode invocation as fatal (`exit_on_error`
true), then the test-mode and results-collection invocations as
non-fatal with their statuses captured and logged, and its return value
is `0` independent of those two statuses. -/
theorem build_and_test_returns_zero (oracle : Nat → Nat) (st : St)
    (hab : st.aborted = none) (hbuild : oracle st.cmdCount = 0) :
    (build_and_test oracle st).1 = 0 ∧
    (build_and_test oracle st).2.aborted = none ∧
    ∃ t1 t2 t3,
      (build_and_test oracle st).2.trace = st.trace ++
        [Event.cmd CmdKind.amentBuild st.binding st.python t1 true true,
         Event.cmd CmdKind.amentTest st.binding st.python t2 false true,
         Event.logStatus CmdKind.amentTest (oracle (st.cmdCount + 1)),
         Event.cmd CmdKind.amentTestResults st.binding st.python t3 false true,
         Event.logStatus CmdKind.amentTestResults (oracle (st.cmdCount + 2))] := by
  unfold build_and_test jobRun logStatusStep
  simp [hab, hbuild]

/-- C2 witness: on a concrete state whose test and results-collection
commands exit with status 7, `build_and_test` still returns 0. -/
theorem build_and_test_returns_zero_witness :
    stBase.aborted = none ∧ testOracle stBase.cmdCount = 0 ∧
    ((build_and_test testOracle stBase).1 = 0 ∧
     (build_and_test testOracle stBase).2.aborted = none ∧
     ∃ t1 t2 t3,
       (build_and_test testOracle stBase).2.trace = stBase.trace ++
         [Event.cmd CmdKind.amentBuild stBase.binding stBase.python t1 true true,
          Event.cmd CmdKind.amentTest stBase.binding stBase.python t2 false true,
          Event.logStatus CmdKind.amentTest (testOracle (stBase.cmdCount + 1)),
          Event.cmd CmdKind.amentTestResults stBase.binding stBase.python t3 false true,
          Event.logStatus CmdKind.amentTestResults (testOracle (stBase.cmdCount + 2))]) :=
  ⟨rfl, rfl, build_and_test_returns_zero testOracle stBase rfl rfl⟩

/-! ### C3: venv on the Windows variant is a fail-fast configuration error -/

/-- C3: when the virtual-env flag is set and the Windows variant is
selected, `run` terminates with the configuration error before any
subprocess call, before the workspace is cleaned, and before any
environment variable is mutated (the trace is empty and the environment
mapping untouched). -/
theorem venv_windows_rejected (oracle : Nat → Nat) (fE : String → Bool) (cfg : Args)
    (praw sysExe cwd0 : String) (env0 : List (String × String))
    (hvenv : cfg.do_venv = true)
    (hsel : selectOS cfg.os (strLower praw) = some OS.windows) :
    (runFull oracle fE cfg praw sysExe cwd0 env0).2.aborted
        = some (Outcome.configExit "--do-venv is not supported on windows") ∧
    (runFull oracle fE cfg praw sysExe cwd0 env0).2.trace = [] ∧
    (runFull oracle fE cfg praw sysExe cwd0 env0).2.env = env0 ∧
    (runFull oracle fE cfg praw sysExe cwd0 env0).2.cmdCount = 0 := by
  unfold runFull run initSt setDerivedPaths selectJob
  simp [hsel, hvenv, osName]

/-- C3 witness: a concrete configuration requesting a virtual
environment with an explicit Windows override on a non-matching
platform name. -/
theorem venv_windows_rejected_witness :
    ({ cfgBase with do_venv := true, os := some "windows" } : Args).do_venv = true ∧
    selectOS ({ cfgBase with do_venv := true, os := some "windows" } : Args).os
        (strLower "plan9") = some OS.windows ∧
    ((runFull testOracle (fun _ => false) { cfgBase with do_venv := true, os := some "windows" }
        "plan9" "/usr/bin/python3" "/ci" []).2.aborted
          = some (Outcome.configExit "--do-venv is not supported on windows") ∧
     (runFull testOracle (fun _ => false) { cfgBase with do_venv := true, os := some "windows" }
        "plan9" "/usr/bin/python3" "/ci" []).2.trace = [] ∧
     (runFull testOracle (fun _ => false) { cfgBase with do_venv := true, os := some "windows" }
        "plan9" "/usr/bin/python3" "/ci" []).2.env = [] ∧
     (runFull testOracle (fun _ => false) { cfgBase with do_venv := true, os := some "windows" }
        "plan9" "/usr/bin/python3" "/ci" []).2.cmdCount = 0) :=
  ⟨rfl, by decide,
   venv_windows_rejected testOracle (fun _ => false) _ "plan9" "/usr/bin/python3" "/ci" []
     rfl (by decide)⟩

/-! ### C10: no variant matched — late AttributeError after side effects -/

/-- C10: with no explicit `--os` override and a platform name matching
none of the three detection prefixes, `run` leaves the batch job
unbound and aborts with an attribute error at `job.pre()`, and this
failure occurs only after the TERM environment variable has been set
and the workspace has been cleaned (removed and recreated). -/
theorem unknown_platform_attrError (oracle : Nat → Nat) (fE : String → Bool) (cfg : Args)
    (praw sysExe cwd0 : String) (env0 : List (String × String))
    (hos : cfg.os = none)
    (h1 : strStartsWith (strLower praw) "linux" = false)
    (h2 : strStartsWith (strLower praw) "darwin" = false)
    (h3 : strStartsWith (strLower praw) "windows" = false) :
    (runFull oracle fE cfg praw sysExe cwd0 env0).2.job = none ∧
    (runFull oracle fE cfg praw sysExe cwd0 env0).2.aborted = some Outcome.attrError ∧
    (runFull oracle fE cfg praw sysExe cwd0 env0).2.trace =
      [Event.setEnvVar "TERM" ((envGet env0 "TERM").getD "xterm-256color"),
       Event.cleanWorkspace
         (if (cfg.white_space_in.getD []).contains "workspace" then "work space"
          else "workspace")] ∧
    (runFull oracle fE cfg praw sysExe cwd0 env0).2.env
      = envSet env0 "TERM" ((envGet env0 "TERM").getD "xterm-256color") := by
  unfold runFull run initSt setDerivedPaths selectJob selectOS setEnvDefault setEnvVarStep
    cleanWorkspaceStep preStep showEnvStep jobRun change_directory
  simp [hos, h1, h2, h3]

/-- C10 witness: a concrete run on the unknown platform name "plan9"
with no override. -/
theorem unknown_platform_attrError_witness :
    cfgBase.os = none ∧
    (strStartsWith (strLower "plan9") "linux" = false ∧
     strStartsWith (strLower "plan9") "darwin" = false ∧
     strStartsWith (strLower "plan9") "windows" = false) ∧
    ((runFull testOracle (fun _ => false) cfgBase "plan9" "/usr/bin/python3" "/ci" []).2.job
        = none ∧
     (runFull testOracle (fun _ => false) cfgBase "plan9" "/usr/bin/python3" "/ci" []).2.aborted
        = some Outcome.attrError ∧
     (runFull testOracle (fun _ => false) cfgBase "plan9" "/usr/bin/python3" "/ci" []).2.trace =
       [Event.setEnvVar "TERM" ((envGet ([] : List (String × String)) "TERM").getD
          "xterm-256color"),
        Event.cleanWorkspace
          (if (cfgBase.white_space_in.getD []).contains "workspace" then "work space"
           else "workspace")] ∧
     (runFull testOracle (fun _ => false) cfgBase "plan9" "/usr/bin/python3" "/ci" []).2.env
        = envSet ([] : List (String × String)) "TERM"
            ((envGet ([] : List (String × String)) "TERM").getD "xterm-256color")) := by
  refine ⟨rfl, ⟨by decide, by decide, by decide⟩, ?_⟩
  exact unknown_platform_attrError testOracle (fun _ => false) cfgBase "plan9" "/usr/bin/python3"
    "/ci" [] rfl (by decide) (by decide) (by decide)

/-! ### Composite preservation lemmas: `args` and `job` through the pipeline -/

theorem setDerivedPaths_job (st : St) : (setDerivedPaths st).job = st.job := rfl

theorem setDerivedPaths_os (st : St) : (setDerivedPaths st).args.os = st.args.os := rfl

theorem selectJob_workspace (p : String) (st : St) :
    (selectJob p st).args.workspace = st.args.workspace := by
  unfold selectJob; split <;> rfl

theorem selectJob_sourcespace (p : String) (st : St) :
    (selectJob p st).args.sourcespace = st.args.sourcespace := by
  unfold selectJob; split <;> rfl

theorem selectJob_buildspace (p : String) (st : St) :
    (selectJob p st).args.buildspace = st.args.buildspace := by
  unfold selectJob; split <;> rfl

theorem selectJob_installspace (p : String) (st : St) :
    (selectJob p st).args.installspace = st.args.installspace := by
  unfold selectJob; split <;> rfl

theorem pushRunStep_binding_venv (st : St) (h : st.aborted = none) :
    (pushRunStep st).binding = Binding.venv := by
  unfold pushRunStep; simp [h]

theorem branchSteps_job (oracle : Nat → Nat) (v : List String) (st : St) :
    (branchSteps oracle v st).job = st.job := by
  unfold branchSteps
  cases htb : st.args.test_branch <;> simp [htb, jobRun_job, logStatusStep_job]

theorem enterVenv_job (oracle : Nat → Nat) (st : St) : (enterVenv oracle st).job = st.job := by
  unfold enterVenv
  simp [jobRun_job, pushRunStep_job, pushPythonStep_job, showEnvStep_job]

theorem insideMain_job (oracle : Nat → Nat) (fE : String → Bool) (bf : St → Nat × St)
    (hbf : ∀ s, ((bf s).2).job = s.job) (st : St) :
    ((insideMain oracle fE bf st).2).job = st.job := by
  unfold insideMain
  simp [hbf, jobRun_job, readReposStep_job, makeDirsStep_job, branchSteps_job,
    setupEnvStep_job, logStatusStep_job]

theorem insideWorkspace_job (oracle : Nat → Nat) (fE : String → Bool) (bf : St → Nat × St)
    (hbf : ∀ s, ((bf s).2).job = s.job) (st : St) :
    ((insideWorkspace oracle fE bf st).2).job = st.job := by
  unfold insideWorkspace
  simp [insideMain_job oracle fE bf hbf, enterVenv_job, apply_ite St.job]

theorem build_and_test_job (oracle : Nat → Nat) (st : St) :
    ((build_and_test oracle st).2).job = st.job := by
  unfold build_and_test
  simp [jobRun_job, logStatusStep_job]

theorem change_directory_job (d : String) (body : St → Nat × St)
    (hbody : ∀ s, ((body s).2).job = s.job) (st : St) :
    ((change_directory d body st).2).job = st.job := by
  unfold change_directory; split
  · rfl
  · simp [hbody]

theorem branchSteps_args (oracle : Nat → Nat) (v : List String) (st : St) :
    (branchSteps oracle v st).args = st.args := by
  unfold branchSteps
  cases htb : st.args.test_branch <;> simp [htb, jobRun_args, logStatusStep_args]

theorem enterVenv_args (oracle : Nat → Nat) (st : St) : (enterVenv oracle st).args = st.args := by
  unfold enterVenv
  simp [jobRun_args, pushRunStep_args, pushPythonStep_args, showEnvStep_args]

theorem insideMain_args (oracle : Nat → Nat) (fE : String → Bool) (bf : St → Nat × St)
    (hbf : ∀ s, ((bf s).2).args = s.args) (st : St) :
    ((insideMain oracle fE bf st).2).args = st.args := by
  unfold insideMain
  simp [hbf, jobRun_args, readReposStep_args, makeDirsStep_args, branchSteps_args,
    setupEnvStep_args, logStatusStep_args]

theorem insideWorkspace_args (oracle : Nat → Nat) (fE : String → Bool) (bf : St → Nat × St)
    (hbf : ∀ s, ((bf s).2).args = s.args) (st : St) :
    ((insideWorkspace oracle fE bf st).2).args = st.args := by
  unfold insideWorkspace
  simp [insideMain_args oracle fE bf hbf, enterVenv_args, apply_ite St.args]

theorem build_and_test_args (oracle : Nat → Nat) (st : St) :
    ((build_and_test oracle st).2).args = st.args := by
  unfold build_and_test
  simp [jobRun_args, logStatusStep_args]

theorem change_directory_args (d : String) (body : St → Nat × St)
    (hbody : ∀ s, ((body s).2).args = s.args) (st : St) :
    ((change_directory d body st).2).args = st.args := by
  unfold change_directory; split
  · rfl
  · simp [hbody]

/-- The batch-job binding in the final state of `run` is exactly the
result of the selection cascade applied once at startup: it never
changes for the lifetime of the run. -/
theorem run_job (oracle : Nat → Nat) (fE : String → Bool) (bf : St → Nat × St)
    (praw : String) (st0 : St) (hbf : ∀ s, ((bf s).2).job = s.job) (h0 : st0.job = none) :
    ((run oracle fE bf praw st0).2).job = selectOS st0.args.os (strLower praw) := by
  have hA := selectJob_job (strLower praw) (setDerivedPaths st0) h0
  unfold run
  dsimp only
  split
  · exact hA
  · rw [change_directory_job _ _ (insideWorkspace_job oracle fE bf hbf)]
    simp [jobRun_job, showEnvStep_job, preStep_job, cleanWorkspaceStep_job,
      setEnvVarStep_job, setEnvDefault_job, apply_ite St.job]
    exact hA

/-- The four derived path-name fields in the final state of `run` are
exactly the values computed once, at startup, from the
whitespace-injection choices. -/
theorem run_paths (oracle : Nat → Nat) (fE : String → Bool) (bf : St → Nat × St)
    (praw : String) (st0 : St) (hbf : ∀ s, ((bf s).2).args = s.args) :
    ((run oracle fE bf praw st0).2).args.workspace
        = (if (st0.args.white_space_in.getD []).contains "workspace" then "work space"
           else "workspace") ∧
    ((run oracle fE bf praw st0).2).args.sourcespace
        = (if (st0.args.white_space_in.getD []).contains "sourcespace" then "source space"
           else "src") ∧
    ((run oracle fE bf praw st0).2).args.buildspace
        = (if (st0.args.white_space_in.getD []).contains "buildspace" then "build space"
           else "build") ∧
    ((run oracle fE bf praw st0).2).args.installspace
        = (if (st0.args.white_space_in.getD []).contains "installspace" then "install space"
           else "install") := by
  unfold run
  dsimp only
  split
  · dsimp only
    rw [selectJob_workspace, selectJob_sourcespace, selectJob_buildspace,
      selectJob_installspace]
    simp [setDerivedPaths]
  · rw [change_directory_args _ _ (insideWorkspace_args oracle fE bf hbf)]
    simp [jobRun_args, showEnvStep_args, preStep_args, cleanWorkspaceStep_args,
      setEnvVarStep_args, setEnvDefault_args, apply_ite Args.workspace,
      apply_ite Args.sourcespace, apply_ite Args.buildspace, apply_ite Args.installspace,
      apply_ite St.args, selectJob_workspace, selectJob_sourcespace, selectJob_buildspace,
      selectJob_installspace, setDerivedPaths]

/-! ### C9: the derived path names -/

/-- C9: the four derived path names of every run are computed once from
the whitespace-injection choices — workspace is "work space" iff
"workspace" is chosen, sourcespace is "source space" iff "sourcespace"
is chosen (else "src"), buildspace is "build space" iff "buildspace" is
chosen (else "build"), installspace is "install space" iff
"installspace" is chosen (else "install") — and the fields still hold
exactly those values in the final state, whatever happened in between
(they are never mutated afterwards). -/
theorem derived_path_names (oracle : Nat → Nat) (fE : String → Bool) (cfg : Args)
    (praw sysExe cwd0 : String) (env0 : List (String × String)) :
    (runFull oracle fE cfg praw sysExe cwd0 env0).2.args.workspace
        = (if (cfg.white_space_in.getD []).contains "workspace" then "work space"
           else "workspace") ∧
    (runFull oracle fE cfg praw sysExe cwd0 env0).2.args.sourcespace
        = (if (cfg.white_space_in.getD []).contains "sourcespace" then "source space"
           else "src") ∧
    (runFull oracle fE cfg praw sysExe cwd0 env0).2.args.buildspace
        = (if (cfg.white_space_in.getD []).contains "buildspace" then "build space"
           else "build") ∧
    (runFull oracle fE cfg praw sysExe cwd0 env0).2.args.installspace
        = (if (cfg.white_space_in.getD []).contains "installspace" then "install space"
           else "install") :=
  run_paths oracle fE (build_and_test oracle) praw (initSt cfg sysExe cwd0 env0)
    (fun s => build_and_test_args oracle s)

/-! ### C1: explicit --os override versus platform detection -/

/-- C1 counterexample: with the explicit override `--os osx` on a
platform whose name starts with "linux", `run` instantiates the Linux
batch job, not the macOS one — the override does not win over
detection, refuting the claim that the override is honoured regardless
of the detected platform name. -/
theorem os_override_counterexample :
    ({ cfgBase with os := some "osx" } : Args).os = some "osx" ∧
    strStartsWith (strLower "Linux-5.15.0-91-generic-x86_64-with-glibc2.35") "linux" = true ∧
    (runFull (fun _ => 0) (fun _ => false) { cfgBase with os := some "osx" }
        "Linux-5.15.0-91-generic-x86_64-with-glibc2.35" "/usr/bin/python3" "/ci" []).2.job
      = some OS.linux ∧
    some OS.linux ≠ some OS.osx := by
  refine ⟨rfl, by decide, ?_, by decide⟩
  have h := run_job (fun _ => 0) (fun _ => false) (build_and_test (fun _ => 0))
    "Linux-5.15.0-91-generic-x86_64-with-glibc2.35"
    (initSt { cfgBase with os := some "osx" } "/usr/bin/python3" "/ci" [])
    (fun s => build_and_test_job (fun _ => 0) s) rfl
  rw [runFull, h]
  decide

/-- C1 amended: the variant is chosen by the first matching branch in
the order linux, osx, windows, where each branch tests the explicit
override OR platform detection.  Hence an override "linux" is always
honoured; "osx" is honoured unless the platform name starts with
"linux"; "windows" is honoured unless the platform name starts with
"linux" or "darwin".  The selected variant is fixed at selection time
and never changes for the lifetime of the run. -/
theorem os_override_amended :
    (∀ p, selectOS (some "linux") p = some OS.linux) ∧
    (∀ p, strStartsWith p "linux" = false → selectOS (some "osx") p = some OS.osx) ∧
    (∀ p, strStartsWith p "linux" = false → strStartsWith p "darwin" = false →
        selectOS (some "windows") p = some OS.windows) ∧
    (∀ (oracle : Nat → Nat) (fE : String → Bool) (cfg : Args)
        (praw sysExe cwd0 : String) (env0 : List (String × String)),
        (runFull oracle fE cfg praw sysExe cwd0 env0).2.job
          = selectOS cfg.os (strLower praw)) := by
  refine ⟨?_, ?_, ?_, ?_⟩
  · intro p
    unfold selectOS
    simp
  · intro p hp
    unfold selectOS
    simp [hp, (by decide : ((some "osx" : Option String) == some "linux") = false),
      (by decide : ((some "osx" : Option String) == some "osx") = true)]
  · intro p h1 h2
    unfold selectOS
    simp [h1, h2, (by decide : ((some "windows" : Option String) == some "linux") = false),
      (by decide : ((some "windows" : Option String) == some "osx") = false),
      (by decide : ((some "windows" : Option String) == some "windows") = true)]
  · intro oracle fE cfg praw sysExe cwd0 env0
    exact run_job oracle fE (build_and_test oracle) praw (initSt cfg sysExe cwd0 env0)
      (fun s => build_and_test_job oracle s) rfl

/-- C1 amended witness: the honoured-override cases at the concrete
platform name "plan9". -/
theorem os_override_amended_witness :
    (strStartsWith "plan9" "linux" = false ∧
     selectOS (some "osx") "plan9" = some OS.osx) ∧
    (strStartsWith "plan9" "linux" = false ∧ strStartsWith "plan9" "darwin" = false ∧
     selectOS (some "windows") "plan9" = some OS.windows) :=
  ⟨⟨by decide, os_override_amended.2.1 "plan9" (by decide)⟩,
   ⟨by decide, by decide, os_override_amended.2.2.1 "plan9" (by decide) (by decide)⟩⟩

/-! ### C7: scoped working-directory restoration -/

/-- The scoped directory change restores the saved working directory
unconditionally — whatever the body did, including aborting the run
part-way through. -/
theorem change_directory_cwd (d : String) (body : St → Nat × St) (st : St) :
    ((change_directory d body st).2).cwd = st.cwd := by
  unfold change_directory; split
  · rfl
  · rfl

/-- C7: the scoped working-directory change that enters the workspace
restores the prior working directory on every exit path out of the
scoped block (for every body, including ones that abort part-way
through), and consequently the working directory at the end of every
full run equals the directory the run started in. -/
theorem scoped_directory_restored :
    (∀ (d : String) (body : St → Nat × St) (st : St),
        ((change_directory d body st).2).cwd = st.cwd) ∧
    (∀ (oracle : Nat → Nat) (fE : String → Bool) (cfg : Args)
        (praw sysExe cwd0 : String) (env0 : List (String × String)),
        (runFull oracle fE cfg praw sysExe cwd0 env0).2.cwd = cwd0) := by
  refine ⟨change_directory_cwd, ?_⟩
  intro oracle fE cfg praw sysExe cwd0 env0
  unfold runFull run
  dsimp only
  split
  · simp [selectJob_cwd, setDerivedPaths_cwd, initSt]
  · rw [change_directory_cwd]
    simp [jobRun_cwd, showEnvStep_cwd, preStep_cwd, cleanWorkspaceStep_cwd,
      setEnvVarStep_cwd, setEnvDefault_cwd, selectJob_cwd, setDerivedPaths_cwd,
      apply_ite St.cwd, initSt]

/-! ### Filter-stability lemmas: which steps can emit which commands -/

theorem setEnvDefault_filter (p : Event → Bool) (hp : ∀ e, p e = true → isCmdE e = true)
    (n d : String) (st : St) :
    ((setEnvDefault n d st).trace).filter p = st.trace.filter p :=
  filter_of_noncmd_shape p hp st _ (setEnvDefault_shape n d st)

theorem setEnvVarStep_filter (p : Event → Bool) (hp : ∀ e, p e = true → isCmdE e = true)
    (n v : String) (st : St) :
    ((setEnvVarStep n v st).trace).filter p = st.trace.filter p :=
  filter_of_noncmd_shape p hp st _ (setEnvVarStep_shape n v st)

theorem cleanWorkspaceStep_filter (p : Event → Bool) (hp : ∀ e, p e = true → isCmdE e = true)
    (st : St) : ((cleanWorkspaceStep st).trace).filter p = st.trace.filter p :=
  filter_of_noncmd_shape p hp st _ (cleanWorkspaceStep_shape st)

theorem preStep_filter (p : Event → Bool) (hp : ∀ e, p e = true → isCmdE e = true)
    (st : St) : ((preStep st).trace).filter p = st.trace.filter p :=
  filter_of_noncmd_shape p hp st _ (preStep_shape st)

theorem showEnvStep_filter (p : Event → Bool) (hp : ∀ e, p e = true → isCmdE e = true)
    (st : St) : ((showEnvStep st).trace).filter p = st.trace.filter p :=
  filter_of_noncmd_shape p hp st _ (showEnvStep_shape st)

theorem setupEnvStep_filter (p : Event → Bool) (hp : ∀ e, p e = true → isCmdE e = true)
    (st : St) : ((setupEnvStep st).trace).filter p = st.trace.filter p :=
  filter_of_noncmd_shape p hp st _ (setupEnvStep_shape st)

theorem pushRunStep_filter (p : Event → Bool) (hp : ∀ e, p e = true → isCmdE e = true)
    (st : St) : ((pushRunStep st).trace).filter p = st.trace.filter p :=
  filter_of_noncmd_shape p hp st _ (pushRunStep_shape st)

theorem pushPythonStep_filter (p : Event → Bool) (hp : ∀ e, p e = true → isCmdE e = true)
    (q : String) (st : St) : ((pushPythonStep q st).trace).filter p = st.trace.filter p :=
  filter_of_noncmd_shape p hp st _ (pushPythonStep_shape q st)

theorem readReposStep_filter (p : Event → Bool) (hp : ∀ e, p e = true → isCmdE e = true)
    (st : St) : ((readReposStep st).trace).filter p = st.trace.filter p :=
  filter_of_noncmd_shape p hp st _ (readReposStep_shape st)

theorem makeDirsStep_filter (p : Event → Bool) (hp : ∀ e, p e = true → isCmdE e = true)
    (fE : String → Bool) (st : St) :
    ((makeDirsStep fE st).trace).filter p = st.trace.filter p :=
  filter_of_noncmd_shape p hp st _ (makeDirsStep_shape fE st)

theorem logStatusStep_filter (p : Event → Bool) (hp : ∀ e, p e = true → isCmdE e = true)
    (k : CmdKind) (s : Nat) (st : St) :
    ((logStatusStep k s st).trace).filter p = st.trace.filter p :=
  filter_of_noncmd_shape p hp st _ (logStatusStep_shape k s st)

theorem jobRun_filter (p : Event → Bool) (oracle : Nat → Nat) (k : CmdKind)
    (tok : List String) (eo sh : Bool) (st : St)
    (hk : ∀ b py, p (Event.cmd k b py tok eo sh) = false) :
    (((jobRun oracle k tok eo sh st).2).trace).filter p = st.trace.filter p := by
  rcases jobRun_shape oracle k tok eo sh st with h | h
  · rw [h]
  · rw [h, List.filter_append]
    simp [hk]

theorem change_directory_filter (p : Event → Bool) (hp : ∀ e, p e = true → isCmdE e = true)
    (d : String) (body : St → Nat × St)
    (hbody : ∀ s, (((body s).2).trace).filter p = s.trace.filter p) (st : St) :
    (((change_directory d body st).2).trace).filter p = st.trace.filter p := by
  unfold change_directory; split
  · rfl
  · dsimp only
    rw [List.filter_append, hbody, List.filter_append]
    have h1 : p (Event.enterDir (pathJoin st.cwd d)) = false := by
      cases hpe : p (Event.enterDir (pathJoin st.cwd d))
      · rfl
      · have := hp _ hpe; simp [isCmdE] at this
    have h2 : p (Event.exitDir st.cwd) = false := by
      cases hpe : p (Event.exitDir st.cwd)
      · rfl
      · have := hp _ hpe; simp [isCmdE] at this
    simp [h1, h2]

/-- When no test-branch override is present, the branch section is a
no-op. -/
theorem branchSteps_none (oracle : Nat → Nat) (v : List String) (st : St)
    (htb : st.args.test_branch = none) : branchSteps oracle v st = st := by
  unfold branchSteps; rw [htb]

theorem selectJob_trace (p : String) (st : St) : (selectJob p st).trace = st.trace := by
  unfold selectJob; split <;> rfl

theorem setDerivedPaths_trace (st : St) : (setDerivedPaths st).trace = st.trace := rfl

theorem enterVenv_vi (oracle : Nat → Nat) (st : St) :
    ((enterVenv oracle st).trace).filter isVenvInstallE = st.trace.filter isVenvInstallE := by
  unfold enterVenv
  rw [showEnvStep_filter _ isCmdE_of_isVenvInstallE,
    pushPythonStep_filter _ isCmdE_of_isVenvInstallE,
    pushRunStep_filter _ isCmdE_of_isVenvInstallE,
    jobRun_filter _ _ _ _ _ _ _ (fun b py => rfl)]

theorem branchSteps_vi (oracle : Nat → Nat) (v : List String) (st : St) :
    ((branchSteps oracle v st).trace).filter isVenvInstallE
      = st.trace.filter isVenvInstallE := by
  unfold branchSteps
  cases htb : st.args.test_branch
  · rfl
  · dsimp only
    rw [logStatusStep_filter _ isCmdE_of_isVenvInstallE,
      jobRun_filter _ _ _ _ _ _ _ (fun b py => rfl),
      logStatusStep_filter _ isCmdE_of_isVenvInstallE,
      jobRun_filter _ _ _ _ _ _ _ (fun b py => rfl),
      jobRun_filter _ _ _ _ _ _ _ (fun b py => rfl)]

theorem insideMain_vi (oracle : Nat → Nat) (fE : String → Bool) (bf : St → Nat × St)
    (hbf : ∀ s, (((bf s).2).trace).filter isVenvInstallE = s.trace.filter isVenvInstallE)
    (st : St) :
    (((insideMain oracle fE bf st).2).trace).filter isVenvInstallE
      = st.trace.filter isVenvInstallE := by
  unfold insideMain
  rw [hbf, setupEnvStep_filter _ isCmdE_of_isVenvInstallE,
    jobRun_filter _ _ _ _ _ _ _ (fun b py => rfl),
    branchSteps_vi,
    jobRun_filter _ _ _ _ _ _ _ (fun b py => rfl),
    makeDirsStep_filter _ isCmdE_of_isVenvInstallE,
    readReposStep_filter _ isCmdE_of_isVenvInstallE,
    jobRun_filter _ _ _ _ _ _ _ (fun b py => rfl),
    jobRun_filter _ _ _ _ _ _ _ (fun b py => rfl),
    jobRun_filter _ _ _ _ _ _ _ (fun b py => rfl),
    jobRun_filter _ _ _ _ _ _ _ (fun b py => rfl),
    jobRun_filter _ _ _ _ _ _ _ (fun b py => rfl)]

theorem insideWorkspace_vi (oracle : Nat → Nat) (fE : String → Bool) (bf : St → Nat × St)
    (hbf : ∀ s, (((bf s).2).trace).filter isVenvInstallE = s.trace.filter isVenvInstallE)
    (st : St) :
    (((insideWorkspace oracle fE bf st).2).trace).filter isVenvInstallE
      = st.trace.filter isVenvInstallE := by
  unfold insideWorkspace
  rw [insideMain_vi oracle fE bf hbf]
  cases hdv : st.args.do_venv <;> simp [hdv, enterVenv_vi]

theorem build_and_test_vi (oracle : Nat → Nat) (st : St) :
    (((build_and_test oracle st).2).trace).filter isVenvInstallE
      = st.trace.filter isVenvInstallE := by
  unfold build_and_test
  rw [logStatusStep_filter _ isCmdE_of_isVenvInstallE,
    jobRun_filter _ _ _ _ _ _ _ (fun b py => rfl),
    logStatusStep_filter _ isCmdE_of_isVenvInstallE,
    jobRun_filter _ _ _ _ _ _ _ (fun b py => rfl),
    jobRun_filter _ _ _ _ _ _ _ (fun b py => rfl)]

/-- On the Linux variant the virtualenv-tooling installation command is
never issued, whatever the exit statuses. -/
theorem run_vi_linux (oracle : Nat → Nat) (fE : String → Bool) (bf : St → Nat × St)
    (praw : String) (st0 : St)
    (hbf : ∀ s, (((bf s).2).trace).filter isVenvInstallE = s.trace.filter isVenvInstallE)
    (hsel : selectOS st0.args.os (strLower praw) = some OS.linux) :
    (((run oracle fE bf praw st0).2).trace).filter isVenvInstallE
      = st0.trace.filter isVenvInstallE := by
  have hos : (selectJob (strLower praw) (setDerivedPaths st0)).args.os = some "linux" := by
    unfold selectJob setDerivedPaths
    simp [hsel, osName]
  unfold run
  dsimp only
  split
  · rw [selectJob_trace, setDerivedPaths_trace]
  · rw [change_directory_filter _ isCmdE_of_isVenvInstallE _ _
      (insideWorkspace_vi oracle fE bf hbf)]
    simp [showEnvStep_args, preStep_args, cleanWorkspaceStep_args, setEnvVarStep_args,
      setEnvDefault_args, apply_ite St.args, hos,
      showEnvStep_filter _ isCmdE_of_isVenvInstallE,
      preStep_filter _ isCmdE_of_isVenvInstallE,
      cleanWorkspaceStep_filter _ isCmdE_of_isVenvInstallE,
      setEnvVarStep_filter _ isCmdE_of_isVenvInstallE,
      setEnvDefault_filter _ isCmdE_of_isVenvInstallE,
      apply_ite, selectJob_trace, setDerivedPaths_trace]

/-! ### Trace-extension machinery: traces only grow -/



theorem extends_refl (s : St) : Extends s s := ⟨[], by simp⟩

theorem extends_trans {a b c : St} (h1 : Extends a b) (h2 : Extends b c) : Extends a c := by
  obtain ⟨n1, e1⟩ := h1
  obtain ⟨n2, e2⟩ := h2
  exact ⟨n1 ++ n2, by rw [e2, e1, List.append_assoc]⟩

theorem extends_of_shape {s1 s2 : St}
    (hsh : s2.trace = s1.trace ∨ ∃ e, s2.trace = s1.trace ++ [e] ∧ isCmdE e = false) :
    Extends s1 s2 := by
  rcases hsh with h | ⟨e, h, _⟩
  · exact ⟨[], by simp [h]⟩
  · exact ⟨[e], h⟩

theorem jobRun_extends (oracle : Nat → Nat) (k : CmdKind) (tok : List String) (eo sh : Bool)
    (st : St) : Extends st ((jobRun oracle k tok eo sh st).2) := by
  rcases jobRun_shape oracle k tok eo sh st with h | h
  · exact ⟨[], by simp [h]⟩
  · exact ⟨_, h⟩

theorem branchSteps_extends (oracle : Nat → Nat) (v : List String) (st : St) :
    Extends st (branchSteps oracle v st) := by
  unfold branchSteps
  cases htb : st.args.test_branch
  · exact extends_refl st
  · exact extends_trans (jobRun_extends _ _ _ _ _ _)
      (extends_trans (jobRun_extends _ _ _ _ _ _)
        (extends_trans (extends_of_shape (logStatusStep_shape _ _ _))
          (extends_trans (jobRun_extends _ _ _ _ _ _)
            (extends_of_shape (logStatusStep_shape _ _ _)))))

theorem enterVenv_extends (oracle : Nat → Nat) (st : St) : Extends st (enterVenv oracle st) := by
  unfold enterVenv
  exact extends_trans (jobRun_extends _ _ _ _ _ _)
    (extends_trans (extends_of_shape (pushRunStep_shape _))
      (extends_trans (extends_of_shape (pushPythonStep_shape _ _))
        (extends_of_shape (showEnvStep_shape _))))

theorem build_and_test_extends (oracle : Nat → Nat) (st : St) :
    Extends st ((build_and_test oracle st).2) := by
  unfold build_and_test
  exact extends_trans (jobRun_extends _ _ _ _ _ _)
    (extends_trans (jobRun_extends _ _ _ _ _ _)
      (extends_trans (extends_of_shape (logStatusStep_shape _ _ _))
        (extends_trans (jobRun_extends _ _ _ _ _ _)
          (extends_of_shape (logStatusStep_shape _ _ _)))))

theorem insideMain_extends (oracle : Nat → Nat) (fE : String → Bool) (bf : St → Nat × St)
    (hbf : ∀ s, Extends s ((bf s).2)) (st : St) :
    Extends st ((insideMain oracle fE bf st).2) := by
  unfold insideMain
  exact extends_trans (jobRun_extends _ _ _ _ _ _)
    (extends_trans (jobRun_extends _ _ _ _ _ _)
      (extends_trans (jobRun_extends _ _ _ _ _ _)
        (extends_trans (jobRun_extends _ _ _ _ _ _)
          (extends_trans (jobRun_extends _ _ _ _ _ _)
            (extends_trans (extends_of_shape (readReposStep_shape _))
              (extends_trans (extends_of_shape (makeDirsStep_shape _ _))
                (extends_trans (jobRun_extends _ _ _ _ _ _)
                  (extends_trans (branchSteps_extends _ _ _)
                    (extends_trans (jobRun_extends _ _ _ _ _ _)
                      (extends_trans (extends_of_shape (setupEnvStep_shape _)) (hbf _)))))))))))

theorem insideWorkspace_extends (oracle : Nat → Nat) (fE : String → Bool) (bf : St → Nat × St)
    (hbf : ∀ s, Extends s ((bf s).2)) (st : St) :
    Extends st ((insideWorkspace oracle fE bf st).2) := by
  unfold insideWorkspace
  refine extends_trans ?_ (insideMain_extends oracle fE bf hbf _)
  cases hdv : st.args.do_venv <;> simp [hdv]
  · exact extends_refl st
  · exact enterVenv_extends oracle st

theorem change_directory_extends (d : String) (body : St → Nat × St)
    (hbody : ∀ s, Extends s ((body s).2)) (st : St) :
    Extends st ((change_directory d body st).2) := by
  unfold change_directory; split
  · exact extends_refl st
  · dsimp only
    obtain ⟨n, hn⟩ := hbody
      { st with cwd := pathJoin st.cwd d, trace := st.trace ++ [Event.enterDir (pathJoin st.cwd d)] }
    refine ⟨[Event.enterDir (pathJoin st.cwd d)] ++ n ++ [Event.exitDir st.cwd], ?_⟩
    dsimp only
    rw [hn]
    simp

/-! ### Deterministic step equations (used to compute trace prefixes) -/

theorem setDerivedPaths_env (st : St) : (setDerivedPaths st).env = st.env := rfl

theorem setDerivedPaths_aborted (st : St) : (setDerivedPaths st).aborted = st.aborted := rfl

theorem setDerivedPaths_binding (st : St) : (setDerivedPaths st).binding = st.binding := rfl

theorem setDerivedPaths_python (st : St) : (setDerivedPaths st).python = st.python := rfl

theorem setDerivedPaths_sysExe (st : St) : (setDerivedPaths st).sysExe = st.sysExe := rfl

theorem setDerivedPaths_cmdCount (st : St) : (setDerivedPaths st).cmdCount = st.cmdCount := rfl

theorem setDerivedPaths_do_venv (st : St) :
    (setDerivedPaths st).args.do_venv = st.args.do_venv := rfl

theorem setDerivedPaths_test_branch (st : St) :
    (setDerivedPaths st).args.test_branch = st.args.test_branch := rfl

theorem selectJob_env (p : String) (st : St) : (selectJob p st).env = st.env := by
  unfold selectJob; split <;> rfl

theorem selectJob_aborted (p : String) (st : St) : (selectJob p st).aborted = st.aborted := by
  unfold selectJob; split <;> rfl

theorem selectJob_binding (p : String) (st : St) : (selectJob p st).binding = st.binding := by
  unfold selectJob; split <;> rfl

theorem selectJob_python (p : String) (st : St) : (selectJob p st).python = st.python := by
  unfold selectJob; split <;> rfl

theorem selectJob_sysExe (p : String) (st : St) : (selectJob p st).sysExe = st.sysExe := by
  unfold selectJob; split <;> rfl

theorem selectJob_cmdCount (p : String) (st : St) : (selectJob p st).cmdCount = st.cmdCount := by
  unfold selectJob; split <;> rfl

theorem selectJob_do_venv (p : String) (st : St) :
    (selectJob p st).args.do_venv = st.args.do_venv := by
  unfold selectJob; split <;> rfl

theorem selectJob_test_branch (p : String) (st : St) :
    (selectJob p st).args.test_branch = st.args.test_branch := by
  unfold selectJob; split <;> rfl

theorem selectJob_os_of_sel (p : String) (st : St) (v : OS)
    (hsel : selectOS st.args.os p = some v) :
    (selectJob p st).args.os = some (osName v) := by
  unfold selectJob; rw [hsel]

theorem selectJob_job_of_sel (p : String) (st : St) (v : OS)
    (hsel : selectOS st.args.os p = some v) :
    (selectJob p st).job = some v := by
  unfold selectJob; rw [hsel]

theorem setEnvDefault_trace_of_none (n d : String) (st : St) (h : st.aborted = none) :
    (setEnvDefault n d st).trace
      = st.trace ++ [Event.setEnvVar n ((envGet st.env n).getD d)] := by
  unfold setEnvDefault; simp [h]

theorem setEnvDefault_aborted (n d : String) (st : St) :
    (setEnvDefault n d st).aborted = st.aborted := by
  unfold setEnvDefault; split <;> rfl

theorem setEnvDefault_env_of_none (n d : String) (st : St) (h : st.aborted = none) :
    (setEnvDefault n d st).env = envSet st.env n ((envGet st.env n).getD d) := by
  unfold setEnvDefault; simp [h]

theorem setEnvDefault_sysExe (n d : String) (st : St) :
    (setEnvDefault n d st).sysExe = st.sysExe := by
  unfold setEnvDefault; split <;> rfl

theorem setEnvVarStep_trace_of_none (n v : String) (st : St) (h : st.aborted = none) :
    (setEnvVarStep n v st).trace = st.trace ++ [Event.setEnvVar n v] := by
  unfold setEnvVarStep; simp [h]

theorem setEnvVarStep_aborted (n v : String) (st : St) :
    (setEnvVarStep n v st).aborted = st.aborted := by
  unfold setEnvVarStep; split <;> rfl

theorem setEnvVarStep_binding (n v : String) (st : St) :
    (setEnvVarStep n v st).binding = st.binding := by
  unfold setEnvVarStep; split <;> rfl

theorem setEnvVarStep_python (n v : String) (st : St) :
    (setEnvVarStep n v st).python = st.python := by
  unfold setEnvVarStep; split <;> rfl

theorem setEnvVarStep_sysExe (n v : String) (st : St) :
    (setEnvVarStep n v st).sysExe = st.sysExe := by
  unfold setEnvVarStep; split <;> rfl

theorem setEnvVarStep_cmdCount2 (n v : String) (st : St) :
    (setEnvVarStep n v st).cmdCount = st.cmdCount := by
  unfold setEnvVarStep; split <;> rfl

theorem cleanWorkspaceStep_trace_of_none (st : St) (h : st.aborted = none) :
    (cleanWorkspaceStep st).trace = st.trace ++ [Event.cleanWorkspace st.args.workspace] := by
  unfold cleanWorkspaceStep; simp [h]

theorem cleanWorkspaceStep_aborted (st : St) :
    (cleanWorkspaceStep st).aborted = st.aborted := by
  unfold cleanWorkspaceStep; split <;> rfl

theorem cleanWorkspaceStep_binding (st : St) : (cleanWorkspaceStep st).binding = st.binding := by
  unfold cleanWorkspaceStep; split <;> rfl

theorem cleanWorkspaceStep_python (st : St) : (cleanWorkspaceStep st).python = st.python := by
  unfold cleanWorkspaceStep; split <;> rfl

theorem cleanWorkspaceStep_sysExe (st : St) : (cleanWorkspaceStep st).sysExe = st.sysExe := by
  unfold cleanWorkspaceStep; split <;> rfl

theorem cleanWorkspaceStep_env (st : St) : (cleanWorkspaceStep st).env = st.env := by
  unfold cleanWorkspaceStep; split <;> rfl

theorem preStep_trace_of_some (st : St) (v : OS) (h : st.aborted = none)
    (hj : st.job = some v) : (preStep st).trace = st.trace ++ [Event.preHook v] := by
  unfold preStep; rw [hj]; simp [h]

theorem preStep_aborted_of_some (st : St) (v : OS) (hj : st.job = some v) :
    (preStep st).aborted = st.aborted := by
  unfold preStep; rw [hj]; split <;> rfl

theorem preStep_binding (st : St) : (preStep st).binding = st.binding := by
  unfold preStep; split
  · rfl
  · split <;> rfl

theorem preStep_python (st : St) : (preStep st).python = st.python := by
  unfold preStep; split
  · rfl
  · split <;> rfl

theorem preStep_sysExe (st : St) : (preStep st).sysExe = st.sysExe := by
  unfold preStep; split
  · rfl
  · split <;> rfl

theorem preStep_env (st : St) : (preStep st).env = st.env := by
  unfold preStep; split
  · rfl
  · split <;> rfl

theorem showEnvStep_trace_of_some (st : St) (v : OS) (h : st.aborted = none)
    (hj : st.job = some v) : (showEnvStep st).trace = st.trace ++ [Event.showEnvHook v] := by
  unfold showEnvStep; rw [hj]; simp [h]

theorem showEnvStep_aborted_of_some (st : St) (v : OS) (hj : st.job = some v) :
    (showEnvStep st).aborted = st.aborted := by
  unfold showEnvStep; rw [hj]; split <;> rfl

theorem showEnvStep_sysExe (st : St) : (showEnvStep st).sysExe = st.sysExe := by
  unfold showEnvStep; split
  · rfl
  · split <;> rfl

theorem showEnvStep_env (st : St) : (showEnvStep st).env = st.env := by
  unfold showEnvStep; split
  · rfl
  · split <;> rfl

theorem jobRun_trace_of_none (oracle : Nat → Nat) (k : CmdKind) (tok : List String)
    (eo sh : Bool) (st : St) (h : st.aborted = none) :
    ((jobRun oracle k tok eo sh st).2).trace
      = st.trace ++ [Event.cmd k st.binding st.python tok eo sh] := by
  unfold jobRun; simp only [h, Option.isSome_none, Bool.false_eq_true, if_false]
  split <;> rfl

theorem jobRun_cmdCount_of_none (oracle : Nat → Nat) (k : CmdKind) (tok : List String)
    (eo sh : Bool) (st : St) (h : st.aborted = none) :
    ((jobRun oracle k tok eo sh st).2).cmdCount = st.cmdCount + 1 := by
  unfold jobRun; simp only [h, Option.isSome_none, Bool.false_eq_true, if_false]
  split <;> rfl

theorem jobRun_aborted_of_zero (oracle : Nat → Nat) (k : CmdKind) (tok : List String)
    (eo sh : Bool) (st : St) (h : st.aborted = none) (hz : oracle st.cmdCount = 0) :
    ((jobRun oracle k tok eo sh st).2).aborted = none := by
  unfold jobRun; simp [h, hz]

theorem jobRun_sysExe (oracle : Nat → Nat) (k : CmdKind) (tok : List String) (eo sh : Bool)
    (st : St) : ((jobRun oracle k tok eo sh st).2).sysExe = st.sysExe := by
  unfold jobRun; split
  · rfl
  · dsimp only; split <;> rfl

theorem pushRunStep_trace_of_none (st : St) (h : st.aborted = none) :
    (pushRunStep st).trace = st.trace ++ [Event.pushRunEvt] := by
  unfold pushRunStep; simp [h]

theorem pushRunStep_aborted (st : St) : (pushRunStep st).aborted = st.aborted := by
  unfold pushRunStep; split <;> rfl

theorem pushRunStep_python (st : St) : (pushRunStep st).python = st.python := by
  unfold pushRunStep; split <;> rfl

theorem pushRunStep_sysExe (st : St) : (pushRunStep st).sysExe = st.sysExe := by
  unfold pushRunStep; split <;> rfl

theorem pushRunStep_cwd (st : St) : (pushRunStep st).cwd = st.cwd := by
  unfold pushRunStep; split <;> rfl

theorem pushPythonStep_trace_of_none (p : String) (st : St) (h : st.aborted = none) :
    (pushPythonStep p st).trace = st.trace ++ [Event.pushPythonEvt] := by
  unfold pushPythonStep; simp [h]

theorem pushPythonStep_aborted (p : String) (st : St) :
    (pushPythonStep p st).aborted = st.aborted := by
  unfold pushPythonStep; split <;> rfl

theorem pushPythonStep_python_of_none (p : String) (st : St) (h : st.aborted = none) :
    (pushPythonStep p st).python = p := by
  unfold pushPythonStep; simp [h]

theorem pushPythonStep_binding (p : String) (st : St) :
    (pushPythonStep p st).binding = st.binding := by
  unfold pushPythonStep; split <;> rfl

theorem pushRunStep_binding_of_none (st : St) (h : st.aborted = none) :
    (pushRunStep st).binding = Binding.venv := by
  unfold pushRunStep; simp [h]

theorem osName_beq_windows (v : OS) :
    ((some (osName v) : Option String) == some "windows") = decide (v = OS.windows) := by
  cases v <;> rfl

theorem osName_bne_linux (v : OS) (h : v ≠ OS.linux) :
    ((some (osName v) : Option String) != some "linux") = true := by
  cases v
  · exact absurd rfl h
  · rfl
  · rfl

/-- On every non-Linux variant (with the venv-on-Windows configuration
error excluded), `run` issues exactly one unprivileged
`pip install -U virtualenv` through the current interpreter before
entering the workspace, and never again afterwards. -/
theorem run_install_nonlinux (oracle : Nat → Nat) (fE : String → Bool) (bf : St → Nat × St)
    (praw : String) (st0 : St) (v : OS)
    (hbfe : ∀ s, Extends s ((bf s).2))
    (hbfv : ∀ s, (((bf s).2).trace).filter isVenvInstallE = s.trace.filter isVenvInstallE)
    (hsel : selectOS st0.args.os (strLower praw) = some v)
    (hnl : v ≠ OS.linux)
    (hvw : st0.args.do_venv = true → v ≠ OS.windows)
    (hab : st0.aborted = none) (htr : st0.trace = []) :
    ∃ rest,
      ((run oracle fE bf praw st0).2).trace =
        [Event.setEnvVar "TERM" ((envGet st0.env "TERM").getD "xterm-256color")]
        ++ (if v = OS.windows then [Event.setEnvVar "ConEmuANSI" "ON"] else [])
        ++ [Event.cleanWorkspace
              (if (st0.args.white_space_in.getD []).contains "workspace" then "work space"
               else "workspace"),
            Event.preHook v, Event.showEnvHook v,
            Event.cmd CmdKind.virtualenvInstall st0.binding st0.python
              [st0.sysExe, "-m", "pip", "install", "-U", "virtualenv"] true false]
        ++ rest ∧
      rest.filter isVenvInstallE = [] := by
  unfold run
  dsimp only
  set stB := selectJob (strLower praw) (setDerivedPaths st0) with hB
  have hBos : stB.args.os = some (osName v) := by
    rw [hB]; exact selectJob_os_of_sel _ _ v hsel
  have hBjob : stB.job = some v := by
    rw [hB]; exact selectJob_job_of_sel _ _ v hsel
  have hBab : stB.aborted = none := by rw [hB, selectJob_aborted, setDerivedPaths_aborted, hab]
  have hBtr : stB.trace = [] := by rw [hB, selectJob_trace, setDerivedPaths_trace, htr]
  have hBdv : stB.args.do_venv = st0.args.do_venv := by
    rw [hB, selectJob_do_venv, setDerivedPaths_do_venv]
  have hBenv : stB.env = st0.env := by rw [hB, selectJob_env, setDerivedPaths_env]
  have hBb : stB.binding = st0.binding := by rw [hB, selectJob_binding, setDerivedPaths_binding]
  have hBpy : stB.python = st0.python := by rw [hB, selectJob_python, setDerivedPaths_python]
  have hBsys : stB.sysExe = st0.sysExe := by rw [hB, selectJob_sysExe, setDerivedPaths_sysExe]
  have hBws : stB.args.workspace
      = (if (st0.args.white_space_in.getD []).contains "workspace" then "work space"
         else "workspace") := by
    rw [hB, selectJob_workspace]; rfl
  have hguard : (stB.args.do_venv && stB.args.os == some "windows") = false := by
    rw [hBdv, hBos, osName_beq_windows]
    by_cases hw : v = OS.windows
    · cases hdv : st0.args.do_venv
      · simp
      · exact absurd hw (hvw hdv)
    · simp [hw]
  rw [hguard]
  simp only [Bool.false_eq_true, if_false]
  set stC := setEnvDefault "TERM" "xterm-256color" stB with hC
  have hCargs : stC.args = stB.args := by rw [hC, setEnvDefault_args]
  have hCab : stC.aborted = none := by rw [hC, setEnvDefault_aborted, hBab]
  have hCjob : stC.job = some v := by rw [hC, setEnvDefault_job, hBjob]
  have hCtr : stC.trace
      = [Event.setEnvVar "TERM" ((envGet st0.env "TERM").getD "xterm-256color")] := by
    rw [hC, setEnvDefault_trace_of_none _ _ _ hBab, hBtr, hBenv]
    simp
  have hCb : stC.binding = st0.binding := by rw [hC, setEnvDefault_binding, hBb]
  have hCpy : stC.python = st0.python := by rw [hC, setEnvDefault_python, hBpy]
  have hCsys : stC.sysExe = st0.sysExe := by rw [hC, setEnvDefault_sysExe, hBsys]
  rw [show (stC.args.os == some "windows") = decide (v = OS.windows) by
    rw [hCargs, hBos, osName_beq_windows]]
  set stD := (if decide (v = OS.windows) = true then setEnvVarStep "ConEmuANSI" "ON" stC
    else stC) with hD
  have hDargs : stD.args = stB.args := by
    rw [hD]; split
    · rw [setEnvVarStep_args, hCargs]
    · exact hCargs
  have hDab : stD.aborted = none := by
    rw [hD]; split
    · rw [setEnvVarStep_aborted, hCab]
    · exact hCab
  have hDjob : stD.job = some v := by
    rw [hD]; split
    · rw [setEnvVarStep_job, hCjob]
    · exact hCjob
  have hDtr : stD.trace
      = [Event.setEnvVar "TERM" ((envGet st0.env "TERM").getD "xterm-256color")]
        ++ (if v = OS.windows then [Event.setEnvVar "ConEmuANSI" "ON"] else []) := by
    rw [hD]
    by_cases hw : v = OS.windows
    · rw [if_pos (by rw [hw]; rfl), setEnvVarStep_trace_of_none _ _ _ hCab, hCtr, if_pos hw]
    · rw [if_neg (by simp [hw]), hCtr, if_neg hw]
      simp
  have hDb : stD.binding = st0.binding := by
    rw [hD]; split
    · rw [setEnvVarStep_binding, hCb]
    · exact hCb
  have hDpy : stD.python = st0.python := by
    rw [hD]; split
    · rw [setEnvVarStep_python, hCpy]
    · exact hCpy
  have hDsys : stD.sysExe = st0.sysExe := by
    rw [hD]; split
    · rw [setEnvVarStep_sysExe, hCsys]
    · exact hCsys
  set stE := cleanWorkspaceStep stD with hE
  have hEargs : stE.args = stB.args := by rw [hE, cleanWorkspaceStep_args, hDargs]
  have hEab : stE.aborted = none := by rw [hE, cleanWorkspaceStep_aborted, hDab]
  have hEjob : stE.job = some v := by rw [hE, cleanWorkspaceStep_job, hDjob]
  have hEtr : stE.trace = stD.trace ++ [Event.cleanWorkspace
      (if (st0.args.white_space_in.getD []).contains "workspace" then "work space"
       else "workspace")] := by
    rw [hE, cleanWorkspaceStep_trace_of_none _ hDab, hDargs, hBws]
  have hEb : stE.binding = st0.binding := by rw [hE, cleanWorkspaceStep_binding, hDb]
  have hEpy : stE.python = st0.python := by rw [hE, cleanWorkspaceStep_python, hDpy]
  have hEsys : stE.sysExe = st0.sysExe := by rw [hE, cleanWorkspaceStep_sysExe, hDsys]
  set stF := preStep stE with hF
  have hFargs : stF.args = stB.args := by rw [hF, preStep_args, hEargs]
  have hFab : stF.aborted = none := by rw [hF, preStep_aborted_of_some _ v hEjob, hEab]
  have hFjob : stF.job = some v := by rw [hF, preStep_job, hEjob]
  have hFtr : stF.trace = stE.trace ++ [Event.preHook v] := by
    rw [hF, preStep_trace_of_some _ v hEab hEjob]
  have hFb : stF.binding = st0.binding := by rw [hF, preStep_binding, hEb]
  have hFpy : stF.python = st0.python := by rw [hF, preStep_python, hEpy]
  have hFsys : stF.sysExe = st0.sysExe := by rw [hF, preStep_sysExe, hEsys]
  set stG := showEnvStep stF with hG
  have hGargs : stG.args = stB.args := by rw [hG, showEnvStep_args, hFargs]
  have hGab : stG.aborted = none := by rw [hG, showEnvStep_aborted_of_some _ v hFjob, hFab]
  have hGtr : stG.trace = stF.trace ++ [Event.showEnvHook v] := by
    rw [hG, showEnvStep_trace_of_some _ v hFab hFjob]
  have hGb : stG.binding = st0.binding := by rw [hG, showEnvStep_binding, hFb]
  have hGpy : stG.python = st0.python := by rw [hG, showEnvStep_python, hFpy]
  have hGsys : stG.sysExe = st0.sysExe := by rw [hG, showEnvStep_sysExe, hFsys]
  rw [show (stG.args.os != some "linux") = true by
    rw [hGargs, hBos]; exact osName_bne_linux v hnl]
  simp only [if_true]
  set stH := (jobRun oracle CmdKind.virtualenvInstall
    [stG.sysExe, "-m", "pip", "install", "-U", "virtualenv"] true false stG).2 with hH
  have hHtr : stH.trace =
      [Event.setEnvVar "TERM" ((envGet st0.env "TERM").getD "xterm-256color")]
      ++ (if v = OS.windows then [Event.setEnvVar "ConEmuANSI" "ON"] else [])
      ++ [Event.cleanWorkspace
            (if (st0.args.white_space_in.getD []).contains "workspace" then "work space"
             else "workspace"),
          Event.preHook v, Event.showEnvHook v,
          Event.cmd CmdKind.virtualenvInstall st0.binding st0.python
            [st0.sysExe, "-m", "pip", "install", "-U", "virtualenv"] true false] := by
    rw [hH, jobRun_trace_of_none _ _ _ _ _ _ hGab, hGtr, hFtr, hEtr, hDtr, hGb, hGpy, hGsys]
    simp
  obtain ⟨n, hn⟩ := change_directory_extends stH.args.workspace (insideWorkspace oracle fE bf)
    (fun s => insideWorkspace_extends oracle fE bf hbfe s) stH
  have hfil := change_directory_filter isVenvInstallE isCmdE_of_isVenvInstallE
    stH.args.workspace (insideWorkspace oracle fE bf)
    (fun s => insideWorkspace_vi oracle fE bf hbfv s) stH
  refine ⟨n, ?_, ?_⟩
  · rw [hn, hHtr]
  · rw [hn, List.filter_append] at hfil
    have hlen := congrArg List.length hfil
    rw [List.length_append] at hlen
    have hz : (n.filter isVenvInstallE).length = 0 := by omega
    exact List.eq_nil_of_length_eq_zero hz

/-! ### C8: virtualenv-tooling installation policy -/

/-- C8: on the Linux variant `run` issues no virtualenv-tooling
installation command at all; on every non-Linux variant it issues
exactly one unprivileged `pip install -U virtualenv` through the current
interpreter (`sys.executable`), before entering the workspace, and no
such command afterwards. -/
theorem virtualenv_install_policy :
    (∀ (oracle : Nat → Nat) (fE : String → Bool) (cfg : Args) (praw sysExe cwd0 : String)
        (env0 : List (String × String)),
        selectOS cfg.os (strLower praw) = some OS.linux →
        venvInstallCmds ((runFull oracle fE cfg praw sysExe cwd0 env0).2.trace) = []) ∧
    (∀ (oracle : Nat → Nat) (fE : String → Bool) (cfg : Args) (praw sysExe cwd0 : String)
        (env0 : List (String × String)) (v : OS),
        selectOS cfg.os (strLower praw) = some v → v ≠ OS.linux →
        (cfg.do_venv = true → v ≠ OS.windows) →
        ∃ rest,
          (runFull oracle fE cfg praw sysExe cwd0 env0).2.trace =
            [Event.setEnvVar "TERM" ((envGet env0 "TERM").getD "xterm-256color")]
            ++ (if v = OS.windows then [Event.setEnvVar "ConEmuANSI" "ON"] else [])
            ++ [Event.cleanWorkspace
                  (if (cfg.white_space_in.getD []).contains "workspace" then "work space"
                   else "workspace"),
                Event.preHook v, Event.showEnvHook v,
                Event.cmd CmdKind.virtualenvInstall Binding.system sysExe
                  [sysExe, "-m", "pip", "install", "-U", "virtualenv"] true false]
            ++ rest ∧
          rest.filter isVenvInstallE = []) := by
  constructor
  · intro oracle fE cfg praw sysExe cwd0 env0 hsel
    have h := run_vi_linux oracle fE (build_and_test oracle) praw (initSt cfg sysExe cwd0 env0)
      (fun s => build_and_test_vi oracle s) hsel
    simpa [venvInstallCmds, runFull, initSt] using h
  · intro oracle fE cfg praw sysExe cwd0 env0 v hsel hnl hvw
    exact run_install_nonlinux oracle fE (build_and_test oracle) praw
      (initSt cfg sysExe cwd0 env0) v (fun s => build_and_test_extends oracle s)
      (fun s => build_and_test_vi oracle s) hsel hnl hvw rfl rfl

/-- C8 witness: a Linux run issues no virtualenv-tooling install; an
macOS-override run on an unknown platform issues exactly one, before
entering the workspace. -/
theorem virtualenv_install_policy_witness :
    (selectOS cfgBase.os (strLower "Linux-5.15.0") = some OS.linux ∧
     venvInstallCmds ((runFull testOracle (fun _ => false) cfgBase "Linux-5.15.0"
        "/usr/bin/python3" "/ci" []).2.trace) = []) ∧
    (selectOS ({ cfgBase with os := some "osx" } : Args).os (strLower "plan9") = some OS.osx ∧
     ∃ rest,
       (runFull testOracle (fun _ => false) { cfgBase with os := some "osx" } "plan9"
          "/usr/bin/python3" "/ci" []).2.trace =
         [Event.setEnvVar "TERM"
            ((envGet ([] : List (String × String)) "TERM").getD "xterm-256color")]
         ++ (if OS.osx = OS.windows then [Event.setEnvVar "ConEmuANSI" "ON"] else [])
         ++ [Event.cleanWorkspace
               (if (({ cfgBase with os := some "osx" } : Args).white_space_in.getD
                  []).contains "workspace" then "work space" else "workspace"),
             Event.preHook OS.osx, Event.showEnvHook OS.osx,
             Event.cmd CmdKind.virtualenvInstall Binding.system "/usr/bin/python3"
               ["/usr/bin/python3", "-m", "pip", "install", "-U", "virtualenv"] true false]
         ++ rest ∧
       rest.filter isVenvInstallE = []) := by
  constructor
  · exact ⟨by decide, virtualenv_install_policy.1 testOracle (fun _ => false) cfgBase
      "Linux-5.15.0" "/usr/bin/python3" "/ci" [] (by decide)⟩
  · exact ⟨by decide, virtualenv_install_policy.2 testOracle (fun _ => false)
      { cfgBase with os := some "osx" } "plan9" "/usr/bin/python3" "/ci" [] OS.osx
      (by decide) (by decide) (fun _ => by decide)⟩

/-! ### C4: the venv rebind and binding discipline -/

theorem jobRun_cwd2 (oracle : Nat → Nat) (k : CmdKind) (tok : List String) (eo sh : Bool)
    (st : St) : ((jobRun oracle k tok eo sh st).2).cwd = st.cwd := jobRun_cwd oracle k tok eo sh st

/-- In venv mode, with the venv-creation command succeeding, the
workspace body appends exactly: the venv-creation command (issued under
the still-active old binding), the two rebind markers, and then only
events issued under the venv binding and the venv interpreter path. -/
theorem insideWorkspace_venv_tail (oracle : Nat → Nat) (fE : String → Bool)
    (bf : St → Nat × St) (hbf : ∀ s, BoundFrom s ((bf s).2)) (st : St)
    (hab : st.aborted = none) (hdv : st.args.do_venv = true)
    (hz : oracle st.cmdCount = 0) :
    ∃ post,
      ((insideWorkspace oracle fE bf st).2).trace =
        st.trace ++
        [Event.cmd CmdKind.venvCreate st.binding st.python
           [st.sysExe, "-m", "virtualenv", "-p", st.sysExe, "venv"] true false,
         Event.pushRunEvt, Event.pushPythonEvt] ++ post ∧
      post.all (cmdBoundTo Binding.venv
        (venvPythonOf (pathJoin st.cwd "venv"))) = true := by
  unfold insideWorkspace
  rw [if_pos hdv]
  unfold enterVenv
  set st2 := (jobRun oracle CmdKind.venvCreate
    [st.sysExe, "-m", "virtualenv", "-p", st.sysExe, "venv"] true false st).2 with h2
  have h2tr : st2.trace = st.trace ++ [Event.cmd CmdKind.venvCreate st.binding st.python
      [st.sysExe, "-m", "virtualenv", "-p", st.sysExe, "venv"] true false] := by
    rw [h2]; exact jobRun_trace_of_none _ _ _ _ _ _ hab
  have h2ab : st2.aborted = none := by
    rw [h2]; exact jobRun_aborted_of_zero _ _ _ _ _ _ hab hz
  have h2cwd : st2.cwd = st.cwd := by rw [h2, jobRun_cwd]
  set st3 := pushRunStep st2 with h3
  have h3tr : st3.trace = st2.trace ++ [Event.pushRunEvt] := by
    rw [h3]; exact pushRunStep_trace_of_none _ h2ab
  have h3ab : st3.aborted = none := by rw [h3, pushRunStep_aborted]; exact h2ab
  have h3b : st3.binding = Binding.venv := by rw [h3]; exact pushRunStep_binding_of_none _ h2ab
  set st4 := pushPythonStep (venvPythonOf (pathJoin st2.cwd "venv")) st3 with h4
  have h4tr : st4.trace = st3.trace ++ [Event.pushPythonEvt] := by
    rw [h4]; exact pushPythonStep_trace_of_none _ _ h3ab
  have h4b : st4.binding = Binding.venv := by rw [h4, pushPythonStep_binding]; exact h3b
  have h4py : st4.python = venvPythonOf (pathJoin st.cwd "venv") := by
    rw [h4, pushPythonStep_python_of_none _ _ h3ab, h2cwd]
  obtain ⟨h5b, h5py, n1, h5tr, h5all⟩ := showEnvStep_bound st4
  obtain ⟨h6b, h6py, n2, h6tr, h6all⟩ := insideMain_bound oracle fE bf hbf (showEnvStep st4)
  refine ⟨n1 ++ n2, ?_, ?_⟩
  · rw [h6tr, h5tr, h4tr, h3tr, h2tr]
    simp
  · rw [h5b, h4b, h5py, h4py] at h6all
    rw [h4b, h4py] at h5all
    simp [List.all_append, h5all, h6all]

/-- Entering the workspace in venv mode, with the venv-creation command
succeeding: the scoped block appends the entry event, the venv-creation
command under the old binding, the two rebind markers, and then only
venv-bound events (the final directory-restoration event included). -/
theorem change_directory_venv_tail (oracle : Nat → Nat) (fE : String → Bool)
    (bf : St → Nat × St) (hbf : ∀ s, BoundFrom s ((bf s).2)) (ws2 : String) (stH : St)
    (hab : stH.aborted = none) (hdv : stH.args.do_venv = true)
    (hz : oracle stH.cmdCount = 0) :
    ∃ post,
      ((change_directory ws2 (insideWorkspace oracle fE bf) stH).2).trace =
        stH.trace ++
        [Event.enterDir (pathJoin stH.cwd ws2),
         Event.cmd CmdKind.venvCreate stH.binding stH.python
           [stH.sysExe, "-m", "virtualenv", "-p", stH.sysExe, "venv"] true false,
         Event.pushRunEvt, Event.pushPythonEvt] ++ post ∧
      post.all (cmdBoundTo Binding.venv
        (venvPythonOf (pathJoin (pathJoin stH.cwd ws2) "venv"))) = true := by
  unfold change_directory
  rw [if_neg (by rw [hab]; simp)]
  dsimp only
  have hA := insideWorkspace_venv_tail oracle fE bf hbf
    ({ stH with cwd := pathJoin stH.cwd ws2, trace := stH.trace ++ [Event.enterDir (pathJoin stH.cwd ws2)] } : St) hab hdv hz
  obtain ⟨post, hA1, hA2⟩ := hA
  dsimp only at hA1 hA2
  refine ⟨post ++ [Event.exitDir stH.cwd], ?_, ?_⟩
  · rw [hA1]
    simp
  · simp [List.all_append, hA2, cmdBoundTo]

/-- Venv-mode rebind on the Linux variant: the full trace splits at the
two rebind markers; every command before them is bound to the initial
binding and interpreter, every command after to the venv. -/
theorem run_rebind_linux (oracle : Nat → Nat) (fE : String → Bool) (bf : St → Nat × St)
    (praw : String) (st0 : St) (hbf : ∀ s, BoundFrom s ((bf s).2))
    (hsel : selectOS st0.args.os (strLower praw) = some OS.linux)
    (hdv : st0.args.do_venv = true) (hz0 : oracle 0 = 0)
    (hab : st0.aborted = none) (htr : st0.trace = []) (hcnt : st0.cmdCount = 0) :
    ∃ post,
      ((run oracle fE bf praw st0).2).trace =
        [Event.setEnvVar "TERM" ((envGet st0.env "TERM").getD "xterm-256color"),
         Event.cleanWorkspace
           (if (st0.args.white_space_in.getD []).contains "workspace" then "work space"
            else "workspace"),
         Event.preHook OS.linux, Event.showEnvHook OS.linux,
         Event.enterDir (pathJoin st0.cwd
           (if (st0.args.white_space_in.getD []).contains "workspace" then "work space"
            else "workspace")),
         Event.cmd CmdKind.venvCreate st0.binding st0.python
           [st0.sysExe, "-m", "virtualenv", "-p", st0.sysExe, "venv"] true false,
         Event.pushRunEvt, Event.pushPythonEvt] ++ post ∧
      post.all (cmdBoundTo Binding.venv (venvPythonOf (pathJoin (pathJoin st0.cwd
        (if (st0.args.white_space_in.getD []).contains "workspace" then "work space"
         else "workspace")) "venv"))) = true := by
  unfold run
  dsimp only
  set stB := selectJob (strLower praw) (setDerivedPaths st0) with hB
  have hBos : stB.args.os = some (osName OS.linux) := by
    rw [hB]; exact selectJob_os_of_sel _ _ OS.linux hsel
  have hBjob : stB.job = some OS.linux := by
    rw [hB]; exact selectJob_job_of_sel _ _ OS.linux hsel
  have hBab : stB.aborted = none := by rw [hB, selectJob_aborted, setDerivedPaths_aborted, hab]
  have hBtr : stB.trace = [] := by rw [hB, selectJob_trace, setDerivedPaths_trace, htr]
  have hBdv : stB.args.do_venv = true := by
    rw [hB, selectJob_do_venv, setDerivedPaths_do_venv, hdv]
  have hBenv : stB.env = st0.env := by rw [hB, selectJob_env, setDerivedPaths_env]
  have hBb : stB.binding = st0.binding := by rw [hB, selectJob_binding, setDerivedPaths_binding]
  have hBpy : stB.python = st0.python := by rw [hB, selectJob_python, setDerivedPaths_python]
  have hBsys : stB.sysExe = st0.sysExe := by rw [hB, selectJob_sysExe, setDerivedPaths_sysExe]
  have hBcwd : stB.cwd = st0.cwd := by rw [hB, selectJob_cwd, setDerivedPaths_cwd]
  have hBcnt : stB.cmdCount = 0 := by rw [hB, selectJob_cmdCount, setDerivedPaths_cmdCount, hcnt]
  have hBws : stB.args.workspace
      = (if (st0.args.white_space_in.getD []).contains "workspace" then "work space"
         else "workspace") := by
    rw [hB, selectJob_workspace]; rfl
  rw [show (stB.args.do_venv && stB.args.os == some "windows") = false by
    rw [hBos]; simp [osName]]
  simp only [Bool.false_eq_true, if_false]
  set stC := setEnvDefault "TERM" "xterm-256color" stB with hC
  have hCargs : stC.args = stB.args := by rw [hC, setEnvDefault_args]
  have hCab : stC.aborted = none := by rw [hC, setEnvDefault_aborted, hBab]
  have hCjob : stC.job = some OS.linux := by rw [hC, setEnvDefault_job, hBjob]
  have hCtr : stC.trace
      = [Event.setEnvVar "TERM" ((envGet st0.env "TERM").getD "xterm-256color")] := by
    rw [hC, setEnvDefault_trace_of_none _ _ _ hBab, hBtr, hBenv]
    simp
  have hCb : stC.binding = st0.binding := by rw [hC, setEnvDefault_binding, hBb]
  have hCpy : stC.python = st0.python := by rw [hC, setEnvDefault_python, hBpy]
  have hCsys : stC.sysExe = st0.sysExe := by rw [hC, setEnvDefault_sysExe, hBsys]
  have hCcwd : stC.cwd = st0.cwd := by rw [hC, setEnvDefault_cwd, hBcwd]
  have hCcnt : stC.cmdCount = 0 := by rw [hC, setEnvDefault_cmdCount, hBcnt]
  rw [show (stC.args.os == some "windows") = false by rw [hCargs, hBos]; rfl]
  simp only [Bool.false_eq_true, if_false]
  set stE := cleanWorkspaceStep stC with hE
  have hEargs : stE.args = stB.args := by rw [hE, cleanWorkspaceStep_args, hCargs]
  have hEab : stE.aborted = none := by rw [hE, cleanWorkspaceStep_aborted, hCab]
  have hEjob : stE.job = some OS.linux := by rw [hE, cleanWorkspaceStep_job, hCjob]
  have hEtr : stE.trace = stC.trace ++ [Event.cleanWorkspace
      (if (st0.args.white_space_in.getD []).contains "workspace" then "work space"
       else "workspace")] := by
    rw [hE, cleanWorkspaceStep_trace_of_none _ hCab, hCargs, hBws]
  have hEb : stE.binding = st0.binding := by rw [hE, cleanWorkspaceStep_binding, hCb]
  have hEpy : stE.python = st0.python := by rw [hE, cleanWorkspaceStep_python, hCpy]
  have hEsys : stE.sysExe = st0.sysExe := by rw [hE, cleanWorkspaceStep_sysExe, hCsys]
  have hEcwd : stE.cwd = st0.cwd := by rw [hE, cleanWorkspaceStep_cwd, hCcwd]
  have hEcnt : stE.cmdCount = 0 := by rw [hE, cleanWorkspaceStep_cmdCount, hCcnt]
  set stF := preStep stE with hF
  have hFargs : stF.args = stB.args := by rw [hF, preStep_args, hEargs]
  have hFab : stF.aborted = none := by rw [hF, preStep_aborted_of_some _ OS.linux hEjob, hEab]
  have hFjob : stF.job = some OS.linux := by rw [hF, preStep_job, hEjob]
  have hFtr : stF.trace = stE.trace ++ [Event.preHook OS.linux] := by
    rw [hF, preStep_trace_of_some _ OS.linux hEab hEjob]
  have hFb : stF.binding = st0.binding := by rw [hF, preStep_binding, hEb]
  have hFpy : stF.python = st0.python := by rw [hF, preStep_python, hEpy]
  have hFsys : stF.sysExe = st0.sysExe := by rw [hF, preStep_sysExe, hEsys]
  have hFcwd : stF.cwd = st0.cwd := by rw [hF, preStep_cwd, hEcwd]
  have hFcnt : stF.cmdCount = 0 := by rw [hF, preStep_cmdCount, hEcnt]
  set stG := showEnvStep stF with hG
  have hGargs : stG.args = stB.args := by rw [hG, showEnvStep_args, hFargs]
  have hGab : stG.aborted = none := by
    rw [hG, showEnvStep_aborted_of_some _ OS.linux hFjob, hFab]
  have hGtr : stG.trace = stF.trace ++ [Event.showEnvHook OS.linux] := by
    rw [hG, showEnvStep_trace_of_some _ OS.linux hFab hFjob]
  have hGb : stG.binding = st0.binding := by rw [hG, showEnvStep_binding, hFb]
  have hGpy : stG.python = st0.python := by rw [hG, showEnvStep_python, hFpy]
  have hGsys : stG.sysExe = st0.sysExe := by rw [hG, showEnvStep_sysExe, hFsys]
  have hGcwd : stG.cwd = st0.cwd := by rw [hG, showEnvStep_cwd, hFcwd]
  have hGcnt : stG.cmdCount = 0 := by rw [hG, showEnvStep_cmdCount, hFcnt]
  rw [show (stG.args.os != some "linux") = false by rw [hGargs, hBos]; rfl]
  simp only [Bool.false_eq_true, if_false]
  obtain ⟨post, ht1, ht2⟩ := change_directory_venv_tail oracle fE bf hbf stG.args.workspace stG
    hGab (by rw [hGargs, hBdv]) (by rw [hGcnt]; exact hz0)
  refine ⟨post, ?_, ?_⟩
  · rw [ht1, hGtr, hFtr, hEtr, hCtr, hGcwd, hGargs, hBws, hGb, hGpy, hGsys]
    simp
  · rw [hGcwd, hGargs, hBws] at ht2
    exact ht2

/-- Venv-mode rebind on the macOS variant: as for Linux, with the
virtualenv-tooling installation command issued (under the old binding)
before the workspace is entered. -/
theorem run_rebind_osx (oracle : Nat → Nat) (fE : String → Bool) (bf : St → Nat × St)
    (praw : String) (st0 : St) (hbf : ∀ s, BoundFrom s ((bf s).2))
    (hsel : selectOS st0.args.os (strLower praw) = some OS.osx)
    (hdv : st0.args.do_venv = true) (hz0 : oracle 0 = 0) (hz1 : oracle 1 = 0)
    (hab : st0.aborted = none) (htr : st0.trace = []) (hcnt : st0.cmdCount = 0) :
    ∃ post,
      ((run oracle fE bf praw st0).2).trace =
        [Event.setEnvVar "TERM" ((envGet st0.env "TERM").getD "xterm-256color"),
         Event.cleanWorkspace
           (if (st0.args.white_space_in.getD []).contains "workspace" then "work space"
            else "workspace"),
         Event.preHook OS.osx, Event.showEnvHook OS.osx,
         Event.cmd CmdKind.virtualenvInstall st0.binding st0.python
           [st0.sysExe, "-m", "pip", "install", "-U", "virtualenv"] true false,
         Event.enterDir (pathJoin st0.cwd
           (if (st0.args.white_space_in.getD []).contains "workspace" then "work space"
            else "workspace")),
         Event.cmd CmdKind.venvCreate st0.binding st0.python
           [st0.sysExe, "-m", "virtualenv", "-p", st0.sysExe, "venv"] true false,
         Event.pushRunEvt, Event.pushPythonEvt] ++ post ∧
      post.all (cmdBoundTo Binding.venv (venvPythonOf (pathJoin (pathJoin st0.cwd
        (if (st0.args.white_space_in.getD []).contains "workspace" then "work space"
         else "workspace")) "venv"))) = true := by
  unfold run
  dsimp only
  set stB := selectJob (strLower praw) (setDerivedPaths st0) with hB
  have hBos : stB.args.os = some (osName OS.osx) := by
    rw [hB]; exact selectJob_os_of_sel _ _ OS.osx hsel
  have hBjob : stB.job = some OS.osx := by
    rw [hB]; exact selectJob_job_of_sel _ _ OS.osx hsel
  have hBab : stB.aborted = none := by rw [hB, selectJob_aborted, setDerivedPaths_aborted, hab]
  have hBtr : stB.trace = [] := by rw [hB, selectJob_trace, setDerivedPaths_trace, htr]
  have hBdv : stB.args.do_venv = true := by
    rw [hB, selectJob_do_venv, setDerivedPaths_do_venv, hdv]
  have hBenv : stB.env = st0.env := by rw [hB, selectJob_env, setDerivedPaths_env]
  have hBb : stB.binding = st0.binding := by rw [hB, selectJob_binding, setDerivedPaths_binding]
  have hBpy : stB.python = st0.python := by rw [hB, selectJob_python, setDerivedPaths_python]
  have hBsys : stB.sysExe = st0.sysExe := by rw [hB, selectJob_sysExe, setDerivedPaths_sysExe]
  have hBcwd : stB.cwd = st0.cwd := by rw [hB, selectJob_cwd, setDerivedPaths_cwd]
  have hBcnt : stB.cmdCount = 0 := by rw [hB, selectJob_cmdCount, setDerivedPaths_cmdCount, hcnt]
  have hBws : stB.args.workspace
      = (if (st0.args.white_space_in.getD []).contains "workspace" then "work space"
         else "workspace") := by
    rw [hB, selectJob_workspace]; rfl
  rw [show (stB.args.do_venv && stB.args.os == some "windows") = false by
    rw [hBos]; simp [osName]]
  simp only [Bool.false_eq_true, if_false]
  set stC := setEnvDefault "TERM" "xterm-256color" stB with hC
  have hCargs : stC.args = stB.args := by rw [hC, setEnvDefault_args]
  have hCab : stC.aborted = none := by rw [hC, setEnvDefault_aborted, hBab]
  have hCjob : stC.job = some OS.osx := by rw [hC, setEnvDefault_job, hBjob]
  have hCtr : stC.trace
      = [Event.setEnvVar "TERM" ((envGet st0.env "TERM").getD "xterm-256color")] := by
    rw [hC, setEnvDefault_trace_of_none _ _ _ hBab, hBtr, hBenv]
    simp
  have hCb : stC.binding = st0.binding := by rw [hC, setEnvDefault_binding, hBb]
  have hCpy : stC.python = st0.python := by rw [hC, setEnvDefault_python, hBpy]
  have hCsys : stC.sysExe = st0.sysExe := by rw [hC, setEnvDefault_sysExe, hBsys]
  have hCcwd : stC.cwd = st0.cwd := by rw [hC, setEnvDefault_cwd, hBcwd]
  have hCcnt : stC.cmdCount = 0 := by rw [hC, setEnvDefault_cmdCount, hBcnt]
  rw [show (stC.args.os == some "windows") = false by rw [hCargs, hBos]; rfl]
  simp only [Bool.false_eq_true, if_false]
  set stE := cleanWorkspaceStep stC with hE
  have hEargs : stE.args = stB.args := by rw [hE, cleanWorkspaceStep_args, hCargs]
  have hEab : stE.aborted = none := by rw [hE, cleanWorkspaceStep_aborted, hCab]
  have hEjob : stE.job = some OS.osx := by rw [hE, cleanWorkspaceStep_job, hCjob]
  have hEtr : stE.trace = stC.trace ++ [Event.cleanWorkspace
      (if (st0.args.white_space_in.getD []).contains "workspace" then "work space"
       else "workspace")] := by
    rw [hE, cleanWorkspaceStep_trace_of_none _ hCab, hCargs, hBws]
  have hEb : stE.binding = st0.binding := by rw [hE, cleanWorkspaceStep_binding, hCb]
  have hEpy : stE.python = st0.python := by rw [hE, cleanWorkspaceStep_python, hCpy]
  have hEsys : stE.sysExe = st0.sysExe := by rw [hE, cleanWorkspaceStep_sysExe, hCsys]
  have hEcwd : stE.cwd = st0.cwd := by rw [hE, cleanWorkspaceStep_cwd, hCcwd]
  have hEcnt : stE.cmdCount = 0 := by rw [hE, cleanWorkspaceStep_cmdCount, hCcnt]
  set stF := preStep stE with hF
  have hFargs : stF.args = stB.args := by rw [hF, preStep_args, hEargs]
  have hFab : stF.aborted = none := by rw [hF, preStep_aborted_of_some _ OS.osx hEjob, hEab]
  have hFjob : stF.job = some OS.osx := by rw [hF, preStep_job, hEjob]
  have hFtr : stF.trace = stE.trace ++ [Event.preHook OS.osx] := by
    rw [hF, preStep_trace_of_some _ OS.osx hEab hEjob]
  have hFb : stF.binding = st0.binding := by rw [hF, preStep_binding, hEb]
  have hFpy : stF.python = st0.python := by rw [hF, preStep_python, hEpy]
  have hFsys : stF.sysExe = st0.sysExe := by rw [hF, preStep_sysExe, hEsys]
  have hFcwd : stF.cwd = st0.cwd := by rw [hF, preStep_cwd, hEcwd]
  have hFcnt : stF.cmdCount = 0 := by rw [hF, preStep_cmdCount, hEcnt]
  set stG := showEnvStep stF with hG
  have hGargs : stG.args = stB.args := by rw [hG, showEnvStep_args, hFargs]
  have hGab : stG.aborted = none := by
    rw [hG, showEnvStep_aborted_of_some _ OS.osx hFjob, hFab]
  have hGtr : stG.trace = stF.trace ++ [Event.showEnvHook OS.osx] := by
    rw [hG, showEnvStep_trace_of_some _ OS.osx hFab hFjob]
  have hGb : stG.binding = st0.binding := by rw [hG, showEnvStep_binding, hFb]
  have hGpy : stG.python = st0.python := by rw [hG, showEnvStep_python, hFpy]
  have hGsys : stG.sysExe = st0.sysExe := by rw [hG, showEnvStep_sysExe, hFsys]
  have hGcwd : stG.cwd = st0.cwd := by rw [hG, showEnvStep_cwd, hFcwd]
  have hGcnt : stG.cmdCount = 0 := by rw [hG, showEnvStep_cmdCount, hFcnt]
  rw [show (stG.args.os != some "linux") = true by rw [hGargs, hBos]; rfl]
  simp only [if_true]
  set stH := (jobRun oracle CmdKind.virtualenvInstall
    [stG.sysExe, "-m", "pip", "install", "-U", "virtualenv"] true false stG).2 with hH
  have hHargs : stH.args = stB.args := by rw [hH, jobRun_args, hGargs]
  have hHab : stH.aborted = none := by
    rw [hH]; exact jobRun_aborted_of_zero _ _ _ _ _ _ hGab (by rw [hGcnt]; exact hz0)
  have hHtr : stH.trace = stG.trace ++ [Event.cmd CmdKind.virtualenvInstall st0.binding
      st0.python [st0.sysExe, "-m", "pip", "install", "-U", "virtualenv"] true false] := by
    rw [hH, jobRun_trace_of_none _ _ _ _ _ _ hGab, hGb, hGpy, hGsys]
  have hHb : stH.binding = st0.binding := by rw [hH, jobRun_binding, hGb]
  have hHpy : stH.python = st0.python := by rw [hH, jobRun_python, hGpy]
  have hHsys : stH.sysExe = st0.sysExe := by rw [hH, jobRun_sysExe, hGsys]
  have hHcwd : stH.cwd = st0.cwd := by rw [hH, jobRun_cwd, hGcwd]
  have hHcnt : stH.cmdCount = 1 := by
    rw [hH, jobRun_cmdCount_of_none _ _ _ _ _ _ hGab, hGcnt]
  obtain ⟨post, ht1, ht2⟩ := change_directory_venv_tail oracle fE bf hbf stH.args.workspace stH
    hHab (by rw [hHargs, hBdv]) (by rw [hHcnt]; exact hz1)
  refine ⟨post, ?_, ?_⟩
  · rw [ht1, hHtr, hGtr, hFtr, hEtr, hCtr, hHcwd, hHargs, hBws, hHb, hHpy, hHsys]
    simp
  · rw [hHcwd, hHargs, hBws] at ht2
    exact ht2

/-- C4: in virtual-env mode (Linux or macOS variant, with the commands
preceding the rebind succeeding), the run's trace splits exactly at the
`push_run`/`push_python` rebind markers: every command issued strictly
before the rebind was issued under the original execution binding and
the system interpreter, and every command issued strictly after it
(setuptools upgrade, version prints, dependency install, vcs import,
and the build-and-test invocations) under the venv binding and the venv
interpreter path; commands already issued are unaffected (they stay
bound to the old binding in the trace). -/
theorem venv_rebind_discipline (oracle : Nat → Nat) (fE : String → Bool) (cfg : Args)
    (praw sysExe cwd0 : String) (env0 : List (String × String))
    (hdv : cfg.do_venv = true)
    (hcase : (selectOS cfg.os (strLower praw) = some OS.linux ∧ oracle 0 = 0) ∨
             (selectOS cfg.os (strLower praw) = some OS.osx ∧ oracle 0 = 0 ∧ oracle 1 = 0)) :
    ∃ pre post,
      (runFull oracle fE cfg praw sysExe cwd0 env0).2.trace
        = pre ++ [Event.pushRunEvt, Event.pushPythonEvt] ++ post ∧
      pre.all (cmdBoundTo Binding.system sysExe) = true ∧
      post.all (cmdBoundTo Binding.venv (venvPythonOf (pathJoin (pathJoin cwd0
        (if (cfg.white_space_in.getD []).contains "workspace" then "work space"
         else "workspace")) "venv"))) = true := by
  rcases hcase with ⟨hsel, hz0⟩ | ⟨hsel, hz0, hz1⟩
  · obtain ⟨post, h1, h2⟩ := run_rebind_linux oracle fE (build_and_test oracle) praw
      (initSt cfg sysExe cwd0 env0) (fun s => build_and_test_bound oracle s) hsel hdv hz0
      rfl rfl rfl
    refine ⟨[Event.setEnvVar "TERM" ((envGet env0 "TERM").getD "xterm-256color"),
      Event.cleanWorkspace
        (if (cfg.white_space_in.getD []).contains "workspace" then "work space"
         else "workspace"),
      Event.preHook OS.linux, Event.showEnvHook OS.linux,
      Event.enterDir (pathJoin cwd0
        (if (cfg.white_space_in.getD []).contains "workspace" then "work space"
         else "workspace")),
      Event.cmd CmdKind.venvCreate Binding.system sysExe
        [sysExe, "-m", "virtualenv", "-p", sysExe, "venv"] true false], post, ?_, ?_, ?_⟩
    · simpa using h1
    · simp [cmdBoundTo]
    · exact h2
  · obtain ⟨post, h1, h2⟩ := run_rebind_osx oracle fE (build_and_test oracle) praw
      (initSt cfg sysExe cwd0 env0) (fun s => build_and_test_bound oracle s) hsel hdv hz0 hz1
      rfl rfl rfl
    refine ⟨[Event.setEnvVar "TERM" ((envGet env0 "TERM").getD "xterm-256color"),
      Event.cleanWorkspace
        (if (cfg.white_space_in.getD []).contains "workspace" then "work space"
         else "workspace"),
      Event.preHook OS.osx, Event.showEnvHook OS.osx,
      Event.cmd CmdKind.virtualenvInstall Binding.system sysExe
        [sysExe, "-m", "pip", "install", "-U", "virtualenv"] true false,
      Event.enterDir (pathJoin cwd0
        (if (cfg.white_space_in.getD []).contains "workspace" then "work space"
         else "workspace")),
      Event.cmd CmdKind.venvCreate Binding.system sysExe
        [sysExe, "-m", "virtualenv", "-p", sysExe, "venv"] true false], post, ?_, ?_, ?_⟩
    · simpa using h1
    · simp [cmdBoundTo]
    · exact h2

/-- C4 witness: a concrete venv-mode Linux run with all commands
succeeding splits at the rebind markers as stated. -/
theorem venv_rebind_discipline_witness :
    ({ cfgBase with do_venv := true } : Args).do_venv = true ∧
    (selectOS ({ cfgBase with do_venv := true } : Args).os (strLower "Linux-5.15.0")
        = some OS.linux ∧ (fun _ : Nat => 0) 0 = 0) ∧
    ∃ pre post,
      (runFull (fun _ => 0) (fun _ => false) { cfgBase with do_venv := true } "Linux-5.15.0"
          "/usr/bin/python3" "/ci" []).2.trace
        = pre ++ [Event.pushRunEvt, Event.pushPythonEvt] ++ post ∧
      pre.all (cmdBoundTo Binding.system "/usr/bin/python3") = true ∧
      post.all (cmdBoundTo Binding.venv (venvPythonOf (pathJoin (pathJoin "/ci"
        (if (({ cfgBase with do_venv := true } : Args).white_space_in.getD
          []).contains "workspace" then "work space" else "workspace")) "venv"))) = true := by
  refine ⟨rfl, ⟨by decide, rfl⟩, ?_⟩
  exact venv_rebind_discipline (fun _ => 0) (fun _ => false) { cfgBase with do_venv := true }
    "Linux-5.15.0" "/usr/bin/python3" "/ci" [] rfl (Or.inl ⟨by decide, rfl⟩)

/-! ### C5: fail-fast semantics of fatal commands -/





theorem readReposStep_aborted (st : St) : (readReposStep st).aborted = st.aborted := by
  unfold readReposStep; split <;> rfl

theorem makeDirsStep_aborted (fE : String → Bool) (st : St) :
    (makeDirsStep fE st).aborted = st.aborted := by
  unfold makeDirsStep; split
  · rfl
  · split <;> rfl

theorem logStatusStep_aborted (k : CmdKind) (s : Nat) (st : St) :
    (logStatusStep k s st).aborted = st.aborted := by
  unfold logStatusStep; split <;> rfl

theorem preStep_abOr (st : St) : (preStep st).aborted = st.aborted ∨ st.aborted = none := by
  cases habs : st.aborted
  · exact Or.inr rfl
  · exact Or.inl (by rw [preStep_of_aborted st _ habs]; exact habs)

theorem showEnvStep_abOr (st : St) :
    (showEnvStep st).aborted = st.aborted ∨ st.aborted = none := by
  cases habs : st.aborted
  · exact Or.inr rfl
  · exact Or.inl (by rw [showEnvStep_of_aborted st _ habs]; exact habs)

theorem setupEnvStep_abOr (st : St) :
    (setupEnvStep st).aborted = st.aborted ∨ st.aborted = none := by
  cases habs : st.aborted
  · exact Or.inr rfl
  · exact Or.inl (by rw [setupEnvStep_of_aborted st _ habs]; exact habs)

/-- A step that issues no command and only aborts from a non-aborted
state preserves the fail-fast invariant. -/
theorem cmdsSpec_noncmd (oracle : Nat → Nat) (s1 s2 : St)
    (hsh : s2.trace = s1.trace ∨ ∃ e, s2.trace = s1.trace ++ [e] ∧ isCmdE e = false)
    (hcnt : s2.cmdCount = s1.cmdCount)
    (hac : s2.aborted = s1.aborted ∨ s1.aborted = none)
    (h : CmdsSpec oracle s1) : CmdsSpec oracle s2 := by
  obtain ⟨h1, h2⟩ := h
  have htr : cmds s2.trace = cmds s1.trace :=
    filter_of_noncmd_shape isCmdE (fun e he => he) s1 s2 hsh
  have hat : ∀ i, cmdAt s2.trace i = cmdAt s1.trace i := by
    intro i; unfold cmdAt; rw [htr]
  constructor
  · rw [htr, hcnt]; exact h1
  · intro i hi hf hnz
    rw [htr] at hi
    rw [hat] at hf
    obtain ⟨ha, hb⟩ := h2 i hi hf hnz
    refine ⟨by rw [hcnt]; exact ha, ?_⟩
    rcases hac with he | he
    · rw [he]; exact hb
    · rw [he] at hb; cases hb

/-- `jobRun` preserves the fail-fast invariant: a fatal command that
fails becomes the last command issued and aborts the run with its
status. -/
theorem cmdsSpec_jobRun (oracle : Nat → Nat) (k : CmdKind) (tok : List String) (eo sh : Bool)
    (st : St) (h : CmdsSpec oracle st) :
    CmdsSpec oracle ((jobRun oracle k tok eo sh st).2) := by
  obtain ⟨h1, h2⟩ := h
  by_cases hab : st.aborted.isSome
  · obtain ⟨o, ho⟩ := Option.isSome_iff_exists.mp hab
    rw [jobRun_of_aborted oracle k tok eo sh st o ho]
    exact ⟨h1, h2⟩
  · have habn : st.aborted = none := Option.not_isSome_iff_eq_none.mp hab
    have hno : ∀ i, i < (cmds st.trace).length → cmdFatal (cmdAt st.trace i) = true →
        oracle i = 0 := by
      intro i hi hf
      by_contra hnz
      obtain ⟨_, hb⟩ := h2 i hi hf hnz
      rw [habn] at hb; cases hb
    have hnew : cmds (st.trace ++ [Event.cmd k st.binding st.python tok eo sh])
        = cmds st.trace ++ [Event.cmd k st.binding st.python tok eo sh] := by
      unfold cmds
      rw [List.filter_append]
      rfl
    have hatL : ∀ i, i < (cmds st.trace).length →
        cmdAt (st.trace ++ [Event.cmd k st.binding st.python tok eo sh]) i
          = cmdAt st.trace i := by
      intro i hi
      unfold cmdAt
      rw [hnew, List.getD_eq_getElem?_getD, List.getD_eq_getElem?_getD,
        List.getElem?_append_left hi]
    have hatR : cmdAt (st.trace ++ [Event.cmd k st.binding st.python tok eo sh])
        ((cmds st.trace).length) = Event.cmd k st.binding st.python tok eo sh := by
      unfold cmdAt
      rw [hnew, List.getD_eq_getElem?_getD, List.getElem?_append_right (le_refl _)]
      simp
    unfold jobRun
    rw [if_neg (by rw [habn]; simp)]
    dsimp only
    split
    · rename_i hcond
      constructor
      · dsimp only
        rw [hnew, List.length_append, h1]
        rfl
      · intro i hi hf hnz
        dsimp only at hi hf ⊢
        rw [hnew, List.length_append, h1] at hi
        by_cases hlt : i < (cmds st.trace).length
        · rw [hatL i hlt] at hf
          exact absurd (hno i hlt hf) hnz
        · have hieq : i = st.cmdCount := by simp at hi; rw [h1] at hlt; omega
          subst hieq
          exact ⟨rfl, rfl⟩
    · rename_i hcond
      constructor
      · dsimp only
        rw [hnew, List.length_append, h1]
        rfl
      · intro i hi hf hnz
        dsimp only at hi hf ⊢
        rw [hnew, List.length_append, h1] at hi
        by_cases hlt : i < (cmds st.trace).length
        · rw [hatL i hlt] at hf
          exact absurd (hno i hlt hf) hnz
        · have hieq : i = (cmds st.trace).length := by simp at hi; omega
          rw [hieq] at hf
          rw [hatR] at hf
          have heo : eo = true := hf
          rw [heo] at hcond
          have hz : oracle st.cmdCount = 0 := by
            by_contra hzz
            exact hcond (by simp [hzz])
          rw [hieq, h1] at hnz
          exact absurd hz hnz

theorem cmdsSpec_branchSteps (oracle : Nat → Nat) (v : List String) (st : St)
    (h : CmdsSpec oracle st) : CmdsSpec oracle (branchSteps oracle v st) := by
  unfold branchSteps
  cases htb : st.args.test_branch
  · exact h
  · exact cmdsSpec_noncmd oracle _ _ (logStatusStep_shape _ _ _) (logStatusStep_cmdCount _ _ _)
      (Or.inl (logStatusStep_aborted _ _ _))
      (cmdsSpec_jobRun _ _ _ _ _ _
        (cmdsSpec_noncmd oracle _ _ (logStatusStep_shape _ _ _) (logStatusStep_cmdCount _ _ _)
          (Or.inl (logStatusStep_aborted _ _ _))
          (cmdsSpec_jobRun _ _ _ _ _ _ (cmdsSpec_jobRun _ _ _ _ _ _ h))))

theorem cmdsSpec_enterVenv (oracle : Nat → Nat) (st : St) (h : CmdsSpec oracle st) :
    CmdsSpec oracle (enterVenv oracle st) := by
  unfold enterVenv
  exact cmdsSpec_noncmd oracle _ _ (showEnvStep_shape _) (showEnvStep_cmdCount _)
    (showEnvStep_abOr _)
    (cmdsSpec_noncmd oracle _ _ (pushPythonStep_shape _ _) (pushPythonStep_cmdCount _ _)
      (Or.inl (pushPythonStep_aborted _ _))
      (cmdsSpec_noncmd oracle _ _ (pushRunStep_shape _) (pushRunStep_cmdCount _)
        (Or.inl (pushRunStep_aborted _))
        (cmdsSpec_jobRun _ _ _ _ _ _ h)))

theorem cmdsSpec_build_and_test (oracle : Nat → Nat) (st : St) (h : CmdsSpec oracle st) :
    CmdsSpec oracle ((build_and_test oracle st).2) := by
  unfold build_and_test
  exact cmdsSpec_noncmd oracle _ _ (logStatusStep_shape _ _ _) (logStatusStep_cmdCount _ _ _)
    (Or.inl (logStatusStep_aborted _ _ _))
    (cmdsSpec_jobRun _ _ _ _ _ _
      (cmdsSpec_noncmd oracle _ _ (logStatusStep_shape _ _ _) (logStatusStep_cmdCount _ _ _)
        (Or.inl (logStatusStep_aborted _ _ _))
        (cmdsSpec_jobRun _ _ _ _ _ _ (cmdsSpec_jobRun _ _ _ _ _ _ h))))

theorem cmdsSpec_insideMain (oracle : Nat → Nat) (fE : String → Bool) (bf : St → Nat × St)
    (hbf : ∀ s, CmdsSpec oracle s → CmdsSpec oracle ((bf s).2)) (st : St)
    (h : CmdsSpec oracle st) : CmdsSpec oracle ((insideMain oracle fE bf st).2) := by
  unfold insideMain
  exact hbf _
    (cmdsSpec_noncmd oracle _ _ (setupEnvStep_shape _) (setupEnvStep_cmdCount _)
      (setupEnvStep_abOr _)
      (cmdsSpec_jobRun _ _ _ _ _ _
        (cmdsSpec_branchSteps _ _ _
          (cmdsSpec_jobRun _ _ _ _ _ _
            (cmdsSpec_noncmd oracle _ _ (makeDirsStep_shape _ _) (makeDirsStep_cmdCount _ _)
              (Or.inl (makeDirsStep_aborted _ _))
              (cmdsSpec_noncmd oracle _ _ (readReposStep_shape _) (readReposStep_cmdCount _)
                (Or.inl (readReposStep_aborted _))
                (cmdsSpec_jobRun _ _ _ _ _ _
                  (cmdsSpec_jobRun _ _ _ _ _ _
                    (cmdsSpec_jobRun _ _ _ _ _ _
                      (cmdsSpec_jobRun _ _ _ _ _ _
                        (cmdsSpec_jobRun _ _ _ _ _ _ h)))))))))))

theorem cmdsSpec_insideWorkspace (oracle : Nat → Nat) (fE : String → Bool) (bf : St → Nat × St)
    (hbf : ∀ s, CmdsSpec oracle s → CmdsSpec oracle ((bf s).2)) (st : St)
    (h : CmdsSpec oracle st) : CmdsSpec oracle ((insideWorkspace oracle fE bf st).2) := by
  unfold insideWorkspace
  refine cmdsSpec_insideMain oracle fE bf hbf _ ?_
  split
  · exact cmdsSpec_enterVenv oracle st h
  · exact h

theorem cmdsSpec_change_directory (oracle : Nat → Nat) (d : String) (body : St → Nat × St)
    (hbody : ∀ s, CmdsSpec oracle s → CmdsSpec oracle ((body s).2)) (st : St)
    (h : CmdsSpec oracle st) : CmdsSpec oracle ((change_directory d body st).2) := by
  unfold change_directory
  split
  · exact h
  · dsimp only
    refine cmdsSpec_noncmd oracle _ _ (Or.inr ⟨Event.exitDir st.cwd, rfl, rfl⟩) rfl
      (Or.inl rfl) ?_
    refine hbody _ ?_
    exact cmdsSpec_noncmd oracle st _
      (Or.inr ⟨Event.enterDir (pathJoin st.cwd d), rfl, rfl⟩) rfl (Or.inl rfl) h

theorem cmdsSpec_ite (oracle : Nat → Nat) (c : Prop) [Decidable c] (f : St → St) (st : St)
    (hf : CmdsSpec oracle st → CmdsSpec oracle (f st)) (h : CmdsSpec oracle st) :
    CmdsSpec oracle (if c then f st else st) := by
  split
  · exact hf h
  · exact h

/-- The fail-fast invariant holds at the end of every full run. -/
theorem runFull_cmdsSpec (oracle : Nat → Nat) (fE : String → Bool) (cfg : Args)
    (praw sysExe cwd0 : String) (env0 : List (String × String)) :
    CmdsSpec oracle ((runFull oracle fE cfg praw sysExe cwd0 env0).2) := by
  have h0 : CmdsSpec oracle (initSt cfg sysExe cwd0 env0) := by
    constructor
    · rfl
    · intro i hi hf hnz
      cases hi
  have hB : CmdsSpec oracle (selectJob (strLower praw) (setDerivedPaths
      (initSt cfg sysExe cwd0 env0))) := by
    obtain ⟨h1, h2⟩ := h0
    constructor
    · rw [selectJob_trace, setDerivedPaths_trace, selectJob_cmdCount, setDerivedPaths_cmdCount]
      exact h1
    · intro i hi hf hnz
      rw [selectJob_trace, setDerivedPaths_trace] at hi
      cases hi
  unfold runFull run
  dsimp only
  split
  · obtain ⟨h1, h2⟩ := hB
    constructor
    · exact h1
    · intro i hi hf hnz
      rw [show cmds (selectJob (strLower praw) (setDerivedPaths
          (initSt cfg sysExe cwd0 env0))).trace = [] by
        rw [selectJob_trace, setDerivedPaths_trace]; rfl] at hi
      cases hi
  · refine cmdsSpec_change_directory oracle _ _
      (fun s hs => cmdsSpec_insideWorkspace oracle fE (build_and_test oracle)
        (fun t ht => cmdsSpec_build_and_test oracle t ht) s hs) _ ?_
    refine cmdsSpec_ite oracle _
      (fun s => (jobRun oracle CmdKind.virtualenvInstall
        [s.sysExe, "-m", "pip", "install", "-U", "virtualenv"] true false s).2) _
      (fun hh => cmdsSpec_jobRun _ _ _ _ _ _ hh) ?_
    refine cmdsSpec_noncmd oracle _ _ (showEnvStep_shape _) (showEnvStep_cmdCount _)
      (showEnvStep_abOr _) ?_
    refine cmdsSpec_noncmd oracle _ _ (preStep_shape _) (preStep_cmdCount _) (preStep_abOr _) ?_
    refine cmdsSpec_noncmd oracle _ _ (cleanWorkspaceStep_shape _)
      (cleanWorkspaceStep_cmdCount _) (Or.inl (cleanWorkspaceStep_aborted _)) ?_
    refine cmdsSpec_ite oracle _ (setEnvVarStep "ConEmuANSI" "ON") _
      (fun hh => cmdsSpec_noncmd oracle _ _ (setEnvVarStep_shape _ _ _)
        (setEnvVarStep_cmdCount2 _ _ _) (Or.inl (setEnvVarStep_aborted _ _ _)) hh) ?_
    exact cmdsSpec_noncmd oracle _ _ (setEnvDefault_shape _ _ _)
      (setEnvDefault_cmdCount _ _ _) (Or.inl (setEnvDefault_aborted _ _ _)) hB

/-- C5: any command issued with `exit_on_error` true that exits with a
nonzero status is the last command the whole run ever issues (no
subsequent step issues any subprocess call), and the run terminates
aborted with exactly that status. -/
theorem fatal_command_halts (oracle : Nat → Nat) (fE : String → Bool) (cfg : Args)
    (praw sysExe cwd0 : String) (env0 : List (String × String)) (i : Nat)
    (hi : i < (cmds ((runFull oracle fE cfg praw sysExe cwd0 env0).2.trace)).length)
    (hf : cmdFatal (cmdAt ((runFull oracle fE cfg praw sysExe cwd0 env0).2.trace) i) = true)
    (hnz : oracle i ≠ 0) :
    i + 1 = (cmds ((runFull oracle fE cfg praw sysExe cwd0 env0).2.trace)).length ∧
    (runFull oracle fE cfg praw sysExe cwd0 env0).2.aborted
      = some (Outcome.fatalExit (oracle i)) := by
  obtain ⟨h1, h2⟩ := runFull_cmdsSpec oracle fE cfg praw sysExe cwd0 env0
  obtain ⟨ha, hb⟩ := h2 i hi hf hnz
  exact ⟨by rw [h1]; exact ha, hb⟩

/-- C5 witness: with every command exiting with status 7, the first
(fatal) command of a concrete Linux run is the last command issued and
the run aborts with status 7. -/
theorem fatal_command_halts_witness :
    0 < (cmds ((runFull (fun _ => 7) (fun _ => false) cfgBase "Linux-5.15.0"
        "/usr/bin/python3" "/ci" []).2.trace)).length ∧
    cmdFatal (cmdAt ((runFull (fun _ => 7) (fun _ => false) cfgBase "Linux-5.15.0"
        "/usr/bin/python3" "/ci" []).2.trace) 0) = true ∧
    (fun _ : Nat => 7) 0 ≠ 0 ∧
    (0 + 1 = (cmds ((runFull (fun _ => 7) (fun _ => false) cfgBase "Linux-5.15.0"
        "/usr/bin/python3" "/ci" []).2.trace)).length ∧
     (runFull (fun _ => 7) (fun _ => false) cfgBase "Linux-5.15.0"
        "/usr/bin/python3" "/ci" []).2.aborted = some (Outcome.fatalExit 7)) := by
  refine ⟨by decide, by decide, by decide, ?_⟩
  exact fatal_command_halts (fun _ => 7) (fun _ => false) cfgBase "Linux-5.15.0"
    "/usr/bin/python3" "/ci" [] 0 (by decide) (by decide) (by decide)

/-! ### C6: the test-branch section -/

theorem jobRun_fst_of_none (oracle : Nat → Nat) (k : CmdKind) (tok : List String)
    (eo sh : Bool) (st : St) (h : st.aborted = none) :
    (jobRun oracle k tok eo sh st).1 = oracle st.cmdCount := by
  unfold jobRun
  rw [if_neg (by rw [h]; simp)]
  dsimp only
  split <;> rfl

theorem jobRun_aborted_nonfatal (oracle : Nat → Nat) (k : CmdKind) (tok : List String)
    (sh : Bool) (st : St) :
    ((jobRun oracle k tok false sh st).2).aborted = st.aborted := by
  unfold jobRun
  split
  · rfl
  · simp

theorem jobRun_aborted_fatal_nz (oracle : Nat → Nat) (k : CmdKind) (tok : List String)
    (sh : Bool) (st : St) (h : st.aborted = none) (hnz : oracle st.cmdCount ≠ 0) :
    ((jobRun oracle k tok true sh st).2).aborted
      = some (Outcome.fatalExit (oracle st.cmdCount)) := by
  unfold jobRun
  rw [if_neg (by rw [h]; simp)]
  dsimp only
  rw [if_pos (by simp [hnz])]

/-- Lines 237-256, reached un-aborted with a test-branch override and a
succeeding branch-creation command: the section issues exactly three
branch commands, in order — create `__ci_default` (fatal), switch to
the target branch (non-fatal, its status logged), rebase onto
`__ci_default` (fatal, issued whatever the switch returned, its status
logged only if it succeeds). -/
theorem branchSteps_some_trace (oracle : Nat → Nat) (vcs : List String) (st : St) (tb : String)
    (hab : st.aborted = none) (htb : st.args.test_branch = some tb)
    (hz0 : oracle st.cmdCount = 0) :
    (branchSteps oracle vcs st).trace = st.trace ++
      [Event.cmd CmdKind.branchCreate st.binding st.python
         (vcs ++ ["custom", ".", "--git", "--args", "checkout", "-b", "__ci_default"])
         true true,
       Event.cmd CmdKind.branchCheckout st.binding st.python
         (vcs ++ ["custom", ".", "--args", "checkout", tb]) false false,
       Event.logStatus CmdKind.branchCheckout (oracle (st.cmdCount + 1)),
       Event.cmd CmdKind.branchRebase st.binding st.python
         (vcs ++ ["custom", ".", "--git", "--args", "rebase", "__ci_default"]) true false]
      ++ (if oracle (st.cmdCount + 2) = 0
          then [Event.logStatus CmdKind.branchRebase (oracle (st.cmdCount + 2))] else []) := by
  unfold branchSteps
  rw [htb]
  dsimp only
  set st1 := (jobRun oracle CmdKind.branchCreate
    (vcs ++ ["custom", ".", "--git", "--args", "checkout", "-b", "__ci_default"])
    true true st).2 with h1
  have h1tr : st1.trace = st.trace ++ [Event.cmd CmdKind.branchCreate st.binding st.python
      (vcs ++ ["custom", ".", "--git", "--args", "checkout", "-b", "__ci_default"])
      true true] := by
    rw [h1]; exact jobRun_trace_of_none _ _ _ _ _ _ hab
  have h1ab : st1.aborted = none := by
    rw [h1]; exact jobRun_aborted_of_zero _ _ _ _ _ _ hab hz0
  have h1b : st1.binding = st.binding := by rw [h1, jobRun_binding]
  have h1py : st1.python = st.python := by rw [h1, jobRun_python]
  have h1cnt : st1.cmdCount = st.cmdCount + 1 := by
    rw [h1]; exact jobRun_cmdCount_of_none _ _ _ _ _ _ hab
  set r := jobRun oracle CmdKind.branchCheckout
    (vcs ++ ["custom", ".", "--args", "checkout", tb]) false false st1 with hr
  have hrtr : r.2.trace = st1.trace ++ [Event.cmd CmdKind.branchCheckout st.binding st.python
      (vcs ++ ["custom", ".", "--args", "checkout", tb]) false false] := by
    rw [hr, jobRun_trace_of_none _ _ _ _ _ _ h1ab, h1b, h1py]
  have hrab : r.2.aborted = none := by rw [hr, jobRun_aborted_nonfatal]; exact h1ab
  have hrfst : r.1 = oracle (st.cmdCount + 1) := by
    rw [hr, jobRun_fst_of_none _ _ _ _ _ _ h1ab, h1cnt]
  have hrb : r.2.binding = st.binding := by rw [hr, jobRun_binding, h1b]
  have hrpy : r.2.python = st.python := by rw [hr, jobRun_python, h1py]
  have hrcnt : r.2.cmdCount = st.cmdCount + 2 := by
    rw [hr, jobRun_cmdCount_of_none _ _ _ _ _ _ h1ab, h1cnt]
  set st2 := logStatusStep CmdKind.branchCheckout r.1 r.2 with h2
  have h2tr : st2.trace = r.2.trace ++ [Event.logStatus CmdKind.branchCheckout
      (oracle (st.cmdCount + 1))] := by
    rw [h2]
    unfold logStatusStep
    rw [if_neg (by rw [hrab]; simp), hrfst]
  have h2ab : st2.aborted = none := by rw [h2, logStatusStep_aborted]; exact hrab
  have h2b : st2.binding = st.binding := by rw [h2, logStatusStep_binding, hrb]
  have h2py : st2.python = st.python := by rw [h2, logStatusStep_python, hrpy]
  have h2cnt : st2.cmdCount = st.cmdCount + 2 := by rw [h2, logStatusStep_cmdCount, hrcnt]
  set r2 := jobRun oracle CmdKind.branchRebase
    (vcs ++ ["custom", ".", "--git", "--args", "rebase", "__ci_default"]) true false st2
    with hr2
  have hr2tr : r2.2.trace = st2.trace ++ [Event.cmd CmdKind.branchRebase st.binding st.python
      (vcs ++ ["custom", ".", "--git", "--args", "rebase", "__ci_default"]) true false] := by
    rw [hr2, jobRun_trace_of_none _ _ _ _ _ _ h2ab, h2b, h2py]
  have hr2fst : r2.1 = oracle (st.cmdCount + 2) := by
    rw [hr2, jobRun_fst_of_none _ _ _ _ _ _ h2ab, h2cnt]
  by_cases hz2 : oracle (st.cmdCount + 2) = 0
  · have hr2ab : r2.2.aborted = none := by
      rw [hr2]
      exact jobRun_aborted_of_zero _ _ _ _ _ _ h2ab (by rw [h2cnt]; exact hz2)
    have hltr : (logStatusStep CmdKind.branchRebase r2.1 r2.2).trace
        = r2.2.trace ++ [Event.logStatus CmdKind.branchRebase (oracle (st.cmdCount + 2))] := by
      unfold logStatusStep
      rw [if_neg (by rw [hr2ab]; simp), hr2fst]
    rw [hltr, hr2tr, h2tr, hrtr, h1tr, if_pos hz2]
    simp
  · have hr2ab : r2.2.aborted = some (Outcome.fatalExit (oracle (st.cmdCount + 2))) := by
      rw [hr2]
      have := jobRun_aborted_fatal_nz oracle CmdKind.branchRebase
        (vcs ++ ["custom", ".", "--git", "--args", "rebase", "__ci_default"]) false st2 h2ab
        (by rw [h2cnt]; exact hz2)
      rw [this, h2cnt]
    have hskip : logStatusStep CmdKind.branchRebase r2.1 r2.2 = r2.2 :=
      logStatusStep_of_aborted _ _ _ _ hr2ab
    rw [hskip, hr2tr, h2tr, hrtr, h1tr, if_neg hz2]
    simp

theorem branchSteps_br_some (oracle : Nat → Nat) (vcs : List String) (st : St) (tb : String)
    (hab : st.aborted = none) (htb : st.args.test_branch = some tb)
    (hz0 : oracle st.cmdCount = 0) :
    branchCmds ((branchSteps oracle vcs st).trace) = branchCmds st.trace ++
      [Event.cmd CmdKind.branchCreate st.binding st.python
         (vcs ++ ["custom", ".", "--git", "--args", "checkout", "-b", "__ci_default"])
         true true,
       Event.cmd CmdKind.branchCheckout st.binding st.python
         (vcs ++ ["custom", ".", "--args", "checkout", tb]) false false,
       Event.cmd CmdKind.branchRebase st.binding st.python
         (vcs ++ ["custom", ".", "--git", "--args", "rebase", "__ci_default"]) true false] := by
  unfold branchCmds
  rw [branchSteps_some_trace oracle vcs st tb hab htb hz0, List.filter_append,
    List.filter_append]
  by_cases hz2 : oracle (st.cmdCount + 2) = 0
  · rw [if_pos hz2]
    simp [isBranchCmdE]
  · rw [if_neg hz2]
    simp [isBranchCmdE]

theorem enterVenv_br (oracle : Nat → Nat) (st : St) :
    branchCmds ((enterVenv oracle st).trace) = branchCmds st.trace := by
  unfold enterVenv branchCmds
  rw [showEnvStep_filter _ isCmdE_of_isBranchCmdE,
    pushPythonStep_filter _ isCmdE_of_isBranchCmdE,
    pushRunStep_filter _ isCmdE_of_isBranchCmdE,
    jobRun_filter isBranchCmdE oracle CmdKind.venvCreate _ _ _ _ (fun b py => rfl)]

theorem build_and_test_br (oracle : Nat → Nat) (st : St) :
    branchCmds (((build_and_test oracle st).2).trace) = branchCmds st.trace := by
  unfold build_and_test branchCmds
  rw [logStatusStep_filter _ isCmdE_of_isBranchCmdE,
    jobRun_filter isBranchCmdE oracle CmdKind.amentTestResults _ _ _ _ (fun b py => rfl),
    logStatusStep_filter _ isCmdE_of_isBranchCmdE,
    jobRun_filter isBranchCmdE oracle CmdKind.amentTest _ _ _ _ (fun b py => rfl),
    jobRun_filter isBranchCmdE oracle CmdKind.amentBuild _ _ _ _ (fun b py => rfl)]

theorem insideMain_br_none (oracle : Nat → Nat) (fE : String → Bool) (bf : St → Nat × St)
    (hbf : ∀ s, branchCmds (((bf s).2).trace) = branchCmds s.trace) (st : St)
    (htb : st.args.test_branch = none) :
    branchCmds (((insideMain oracle fE bf st).2).trace) = branchCmds st.trace := by
  unfold insideMain
  dsimp only
  rw [branchSteps_none _ _ _ (by
    simp [jobRun_args, readReposStep_args, makeDirsStep_args, htb])]
  rw [hbf]
  unfold branchCmds
  rw [setupEnvStep_filter _ isCmdE_of_isBranchCmdE,
    jobRun_filter isBranchCmdE oracle CmdKind.vcsLog _ _ _ _ (fun b py => rfl),
    jobRun_filter isBranchCmdE oracle CmdKind.vcsImport _ _ _ _ (fun b py => rfl),
    makeDirsStep_filter _ isCmdE_of_isBranchCmdE,
    readReposStep_filter _ isCmdE_of_isBranchCmdE,
    jobRun_filter isBranchCmdE oracle CmdKind.curlRepos _ _ _ _ (fun b py => rfl),
    jobRun_filter isBranchCmdE oracle CmdKind.pipDeps _ _ _ _ (fun b py => rfl),
    jobRun_filter isBranchCmdE oracle CmdKind.pipVersion _ _ _ _ (fun b py => rfl),
    jobRun_filter isBranchCmdE oracle CmdKind.printSetuptools _ _ _ _ (fun b py => rfl),
    jobRun_filter isBranchCmdE oracle CmdKind.pipSetuptools _ _ _ _ (fun b py => rfl)]

theorem insideWorkspace_br_none (oracle : Nat → Nat) (fE : String → Bool) (bf : St → Nat × St)
    (hbf : ∀ s, branchCmds (((bf s).2).trace) = branchCmds s.trace) (st : St)
    (htb : st.args.test_branch = none) :
    branchCmds (((insideWorkspace oracle fE bf st).2).trace) = branchCmds st.trace := by
  unfold insideWorkspace
  split
  · rw [insideMain_br_none oracle fE bf hbf _ (by rw [enterVenv_args]; exact htb),
      enterVenv_br]
  · exact insideMain_br_none oracle fE bf hbf st htb

/-- Scoped-directory version of the filter lemma, needing the body's
filter stability only at the actually-entered state. -/
theorem change_directory_filter_at (p : Event → Bool)
    (hp : ∀ e, p e = true → isCmdE e = true) (d : String) (body : St → Nat × St) (st : St)
    (hbody : (((body ({ st with cwd := pathJoin st.cwd d, trace := st.trace ++ [Event.enterDir (pathJoin st.cwd d)] } : St)).2).trace).filter p = (st.trace ++ [Event.enterDir (pathJoin st.cwd d)]).filter p) :
    (((change_directory d body st).2).trace).filter p = st.trace.filter p := by
  unfold change_directory
  split
  · rfl
  · dsimp only
    rw [List.filter_append, hbody, List.filter_append]
    have h1 : p (Event.enterDir (pathJoin st.cwd d)) = false := by
      cases hpe : p (Event.enterDir (pathJoin st.cwd d))
      · rfl
      · have := hp _ hpe; simp [isCmdE] at this
    have h2 : p (Event.exitDir st.cwd) = false := by
      cases hpe : p (Event.exitDir st.cwd)
      · rfl
      · have := hp _ hpe; simp [isCmdE] at this
    simp [h1, h2]

set_option maxRecDepth 4096 in
/-- Without a test-branch override no branch command is ever issued,
whatever the exit statuses. -/
theorem run_branch_none (oracle : Nat → Nat) (fE : String → Bool) (bf : St → Nat × St)
    (praw : String) (st0 : St)
    (hbf : ∀ s, branchCmds (((bf s).2).trace) = branchCmds s.trace)
    (htb : st0.args.test_branch = none) :
    branchCmds (((run oracle fE bf praw st0).2).trace) = branchCmds st0.trace := by
  unfold run
  dsimp only
  split
  · show branchCmds (selectJob (strLower praw) (setDerivedPaths st0)).trace = _
    rw [selectJob_trace, setDerivedPaths_trace]
  · unfold branchCmds
    rw [change_directory_filter_at isBranchCmdE isCmdE_of_isBranchCmdE _ _ _
      (insideWorkspace_br_none oracle fE bf hbf _
        (by
          simp [jobRun_args, showEnvStep_args, preStep_args, cleanWorkspaceStep_args,
            setEnvVarStep_args, setEnvDefault_args, apply_ite St.args, selectJob_test_branch,
            setDerivedPaths_test_branch, htb]))]
    simp [showEnvStep_filter _ isCmdE_of_isBranchCmdE,
      preStep_filter _ isCmdE_of_isBranchCmdE,
      cleanWorkspaceStep_filter _ isCmdE_of_isBranchCmdE,
      setEnvVarStep_filter _ isCmdE_of_isBranchCmdE,
      setEnvDefault_filter _ isCmdE_of_isBranchCmdE,
      jobRun_filter isBranchCmdE oracle CmdKind.virtualenvInstall _ _ _ _ (fun b py => rfl),
      apply_ite (fun t : List Event => t.filter isBranchCmdE), apply_ite St.trace,
      selectJob_trace, setDerivedPaths_trace]

theorem insideMain_br_some (oracle : Nat → Nat) (fE : String → Bool) (bf : St → Nat × St)
    (hbf : ∀ s, branchCmds (((bf s).2).trace) = branchCmds s.trace) (st : St) (tb : String)
    (htb : st.args.test_branch = some tb) (hab : st.aborted = none)
    (hz : ∀ j, oracle j = 0) :
    ∃ vcs b py, branchCmds (((insideMain oracle fE bf st).2).trace) =
      branchCmds st.trace ++
      [Event.cmd CmdKind.branchCreate b py
         (vcs ++ ["custom", ".", "--git", "--args", "checkout", "-b", "__ci_default"])
         true true,
       Event.cmd CmdKind.branchCheckout b py
         (vcs ++ ["custom", ".", "--args", "checkout", tb]) false false,
       Event.cmd CmdKind.branchRebase b py
         (vcs ++ ["custom", ".", "--git", "--args", "rebase", "__ci_default"]) true false] := by
  unfold insideMain
  dsimp only
  set stA := (jobRun oracle CmdKind.pipSetuptools
    [shQuote st.python, "-m", "pip", "install", "-U", "pip", "setuptools"] true true st).2
    with hA
  have hAab : stA.aborted = none := by
    rw [hA]; exact jobRun_aborted_of_zero _ _ _ _ _ _ hab (hz _)
  have hAargs : stA.args = st.args := by rw [hA, jobRun_args]
  have hAfil : branchCmds stA.trace = branchCmds st.trace := by
    rw [hA]
    exact jobRun_filter isBranchCmdE oracle CmdKind.pipSetuptools _ _ _ _ (fun b py => rfl)
  set stB := (jobRun oracle CmdKind.printSetuptools
    [shQuote stA.python, "-c", shQuote "import setuptools; print(setuptools.__version__)"]
    true true stA).2 with hB
  have hBab : stB.aborted = none := by
    rw [hB]; exact jobRun_aborted_of_zero _ _ _ _ _ _ hAab (hz _)
  have hBargs : stB.args = st.args := by rw [hB, jobRun_args, hAargs]
  have hBfil : branchCmds stB.trace = branchCmds st.trace := by
    rw [hB]
    rw [show branchCmds (((jobRun oracle CmdKind.printSetuptools
      [shQuote stA.python, "-c", shQuote "import setuptools; print(setuptools.__version__)"]
      true true stA).2).trace) = branchCmds stA.trace from
      jobRun_filter isBranchCmdE oracle CmdKind.printSetuptools _ _ _ _ (fun b py => rfl)]
    exact hAfil
  set stC := (jobRun oracle CmdKind.pipVersion [shQuote stB.python, "-m", "pip", "--version"]
    true true stB).2 with hC
  have hCab : stC.aborted = none := by
    rw [hC]; exact jobRun_aborted_of_zero _ _ _ _ _ _ hBab (hz _)
  have hCargs : stC.args = st.args := by rw [hC, jobRun_args, hBargs]
  have hCfil : branchCmds stC.trace = branchCmds st.trace := by
    rw [hC]
    rw [show branchCmds (((jobRun oracle CmdKind.pipVersion
      [shQuote stB.python, "-m", "pip", "--version"] true true stB).2).trace)
      = branchCmds stB.trace from
      jobRun_filter isBranchCmdE oracle CmdKind.pipVersion _ _ _ _ (fun b py => rfl)]
    exact hBfil
  set stD := (jobRun oracle CmdKind.pipDeps
    ([shQuote stC.python, "-m", "pip", "install", "-U"] ++ pip_dependencies) true true stC).2
    with hD
  have hDab : stD.aborted = none := by
    rw [hD]; exact jobRun_aborted_of_zero _ _ _ _ _ _ hCab (hz _)
  have hDargs : stD.args = st.args := by rw [hD, jobRun_args, hCargs]
  have hDfil : branchCmds stD.trace = branchCmds st.trace := by
    rw [hD]
    rw [show branchCmds (((jobRun oracle CmdKind.pipDeps
      ([shQuote stC.python, "-m", "pip", "install", "-U"] ++ pip_dependencies)
      true true stC).2).trace) = branchCmds stC.trace from
      jobRun_filter isBranchCmdE oracle CmdKind.pipDeps _ _ _ _ (fun b py => rfl)]
    exact hCfil
  set stE := (jobRun oracle CmdKind.curlRepos
    ["curl", "-sk", stD.args.repo_file_url, "-o", "ros2.repos"] true false stD).2 with hE
  have hEab : stE.aborted = none := by
    rw [hE]; exact jobRun_aborted_of_zero _ _ _ _ _ _ hDab (hz _)
  have hEargs : stE.args = st.args := by rw [hE, jobRun_args, hDargs]
  have hEfil : branchCmds stE.trace = branchCmds st.trace := by
    rw [hE]
    rw [show branchCmds (((jobRun oracle CmdKind.curlRepos
      ["curl", "-sk", stD.args.repo_file_url, "-o", "ros2.repos"] true false stD).2).trace)
      = branchCmds stD.trace from
      jobRun_filter isBranchCmdE oracle CmdKind.curlRepos _ _ _ _ (fun b py => rfl)]
    exact hDfil
  set stF := readReposStep stE with hF
  have hFab : stF.aborted = none := by rw [hF, readReposStep_aborted]; exact hEab
  have hFargs : stF.args = st.args := by rw [hF, readReposStep_args, hEargs]
  have hFfil : branchCmds stF.trace = branchCmds st.trace := by
    rw [hF]
    rw [show branchCmds ((readReposStep stE).trace) = branchCmds stE.trace from
      readReposStep_filter isBranchCmdE isCmdE_of_isBranchCmdE stE]
    exact hEfil
  set stG := makeDirsStep fE stF with hG
  have hGab : stG.aborted = none := by rw [hG, makeDirsStep_aborted]; exact hFab
  have hGargs : stG.args = st.args := by rw [hG, makeDirsStep_args, hFargs]
  have hGfil : branchCmds stG.trace = branchCmds st.trace := by
    rw [hG]
    rw [show branchCmds ((makeDirsStep fE stF).trace) = branchCmds stF.trace from
      makeDirsStep_filter isBranchCmdE isCmdE_of_isBranchCmdE fE stF]
    exact hFfil
  set stH := (jobRun oracle CmdKind.vcsImport
    (vcsCmdOf stG ++ ["import", shQuote stG.args.sourcespace, "--input", "ros2.repos"])
    true true stG).2 with hH
  have hHab : stH.aborted = none := by
    rw [hH]; exact jobRun_aborted_of_zero _ _ _ _ _ _ hGab (hz _)
  have hHargs : stH.args = st.args := by rw [hH, jobRun_args, hGargs]
  have hHfil : branchCmds stH.trace = branchCmds st.trace := by
    rw [hH]
    rw [show branchCmds (((jobRun oracle CmdKind.vcsImport
      (vcsCmdOf stG ++ ["import", shQuote stG.args.sourcespace, "--input", "ros2.repos"])
      true true stG).2).trace) = branchCmds stG.trace from
      jobRun_filter isBranchCmdE oracle CmdKind.vcsImport _ _ _ _ (fun b py => rfl)]
    exact hGfil
  refine ⟨vcsCmdOf stG, stH.binding, stH.python, ?_⟩
  rw [hbf]
  rw [show branchCmds ((setupEnvStep (jobRun oracle CmdKind.vcsLog
    (vcsCmdOf stG ++ ["log", "-l1", shQuote (branchSteps oracle (vcsCmdOf stG)
      stH).args.sourcespace]) true true (branchSteps oracle (vcsCmdOf stG) stH)).2).trace)
    = branchCmds (((jobRun oracle CmdKind.vcsLog
    (vcsCmdOf stG ++ ["log", "-l1", shQuote (branchSteps oracle (vcsCmdOf stG)
      stH).args.sourcespace]) true true (branchSteps oracle (vcsCmdOf stG) stH)).2).trace)
    from setupEnvStep_filter isBranchCmdE isCmdE_of_isBranchCmdE _]
  rw [show branchCmds (((jobRun oracle CmdKind.vcsLog
    (vcsCmdOf stG ++ ["log", "-l1", shQuote (branchSteps oracle (vcsCmdOf stG)
      stH).args.sourcespace]) true true (branchSteps oracle (vcsCmdOf stG) stH)).2).trace)
    = branchCmds ((branchSteps oracle (vcsCmdOf stG) stH).trace) from
    jobRun_filter isBranchCmdE oracle CmdKind.vcsLog _ _ _ _ (fun b py => rfl)]
  rw [branchSteps_br_some oracle (vcsCmdOf stG) stH tb hHab
    (by rw [hHargs]; exact htb) (hz _)]
  rw [hHfil]

theorem enterVenv_aborted_none (oracle : Nat → Nat) (st : St) (v : OS)
    (hab : st.aborted = none) (hjob : st.job = some v) (hz : ∀ j, oracle j = 0) :
    (enterVenv oracle st).aborted = none := by
  unfold enterVenv
  have h1 : ((jobRun oracle CmdKind.venvCreate
      [st.sysExe, "-m", "virtualenv", "-p", st.sysExe, "venv"] true false st).2).aborted
      = none := jobRun_aborted_of_zero _ _ _ _ _ _ hab (hz _)
  have h2 : (pushRunStep (jobRun oracle CmdKind.venvCreate
      [st.sysExe, "-m", "virtualenv", "-p", st.sysExe, "venv"] true false st).2).aborted
      = none := by rw [pushRunStep_aborted]; exact h1
  have hj : (pushPythonStep (venvPythonOf (pathJoin ((jobRun oracle CmdKind.venvCreate
      [st.sysExe, "-m", "virtualenv", "-p", st.sysExe, "venv"] true false st).2).cwd "venv"))
      (pushRunStep (jobRun oracle CmdKind.venvCreate
      [st.sysExe, "-m", "virtualenv", "-p", st.sysExe, "venv"] true false st).2)).job
      = some v := by
    rw [pushPythonStep_job, pushRunStep_job, jobRun_job, hjob]
  rw [showEnvStep_aborted_of_some _ v hj, pushPythonStep_aborted]
  exact h2

theorem insideWorkspace_br_some (oracle : Nat → Nat) (fE : String → Bool) (bf : St → Nat × St)
    (hbf : ∀ s, branchCmds (((bf s).2).trace) = branchCmds s.trace) (st : St) (v : OS)
    (tb : String) (htb : st.args.test_branch = some tb) (hab : st.aborted = none)
    (hjob : st.job = some v) (hz : ∀ j, oracle j = 0) :
    ∃ vcs b py, branchCmds (((insideWorkspace oracle fE bf st).2).trace) =
      branchCmds st.trace ++
      [Event.cmd CmdKind.branchCreate b py
         (vcs ++ ["custom", ".", "--git", "--args", "checkout", "-b", "__ci_default"])
         true true,
       Event.cmd CmdKind.branchCheckout b py
         (vcs ++ ["custom", ".", "--args", "checkout", tb]) false false,
       Event.cmd CmdKind.branchRebase b py
         (vcs ++ ["custom", ".", "--git", "--args", "rebase", "__ci_default"]) true false] := by
  unfold insideWorkspace
  split
  · obtain ⟨vcs, b, py, h⟩ := insideMain_br_some oracle fE bf hbf (enterVenv oracle st) tb
      (by rw [enterVenv_args]; exact htb)
      (enterVenv_aborted_none oracle st v hab hjob hz) hz
    refine ⟨vcs, b, py, ?_⟩
    rw [h, enterVenv_br]
  · exact insideMain_br_some oracle fE bf hbf st tb htb hab hz

/-- With a test-branch override and every command succeeding
(non-fatal statuses may still be anything on another oracle; here all
zero), the full run issues exactly the three branch commands, in
order. -/
theorem run_branch_some (oracle : Nat → Nat) (fE : String → Bool) (bf : St → Nat × St)
    (praw : String) (st0 : St) (v : OS) (tb : String)
    (hbf : ∀ s, branchCmds (((bf s).2).trace) = branchCmds s.trace)
    (hsel : selectOS st0.args.os (strLower praw) = some v)
    (htb : st0.args.test_branch = some tb)
    (hvw : st0.args.do_venv = true → v ≠ OS.windows)
    (hz : ∀ j, oracle j = 0)
    (hab : st0.aborted = none) (htr : st0.trace = []) :
    ∃ vcs b py, branchCmds (((run oracle fE bf praw st0).2).trace) =
      [Event.cmd CmdKind.branchCreate b py
         (vcs ++ ["custom", ".", "--git", "--args", "checkout", "-b", "__ci_default"])
         true true,
       Event.cmd CmdKind.branchCheckout b py
         (vcs ++ ["custom", ".", "--args", "checkout", tb]) false false,
       Event.cmd CmdKind.branchRebase b py
         (vcs ++ ["custom", ".", "--git", "--args", "rebase", "__ci_default"]) true false] := by
  unfold run
  dsimp only
  set stB := selectJob (strLower praw) (setDerivedPaths st0) with hB
  have hBos : stB.args.os = some (osName v) := by
    rw [hB]; exact selectJob_os_of_sel _ _ v hsel
  have hBjob : stB.job = some v := by
    rw [hB]; exact selectJob_job_of_sel _ _ v hsel
  have hBab : stB.aborted = none := by rw [hB, selectJob_aborted, setDerivedPaths_aborted, hab]
  have hBtr : stB.trace = [] := by rw [hB, selectJob_trace, setDerivedPaths_trace, htr]
  have hBdv : stB.args.do_venv = st0.args.do_venv := by
    rw [hB, selectJob_do_venv, setDerivedPaths_do_venv]
  have hBtb : stB.args.test_branch = some tb := by
    rw [hB, selectJob_test_branch, setDerivedPaths_test_branch, htb]
  rw [show (stB.args.do_venv && stB.args.os == some "windows") = false by
    rw [hBdv, hBos, osName_beq_windows]
    by_cases hw : v = OS.windows
    · cases hdv : st0.args.do_venv
      · simp
      · exact absurd hw (hvw hdv)
    · simp [hw]]
  simp only [Bool.false_eq_true, if_false]
  set stC := setEnvDefault "TERM" "xterm-256color" stB with hC
  have hCargs : stC.args = stB.args := by rw [hC, setEnvDefault_args]
  have hCab : stC.aborted = none := by rw [hC, setEnvDefault_aborted, hBab]
  have hCjob : stC.job = some v := by rw [hC, setEnvDefault_job, hBjob]
  have hCfil : branchCmds stC.trace = [] := by
    rw [hC]
    rw [show branchCmds ((setEnvDefault "TERM" "xterm-256color" stB).trace)
      = branchCmds stB.trace from
      setEnvDefault_filter isBranchCmdE isCmdE_of_isBranchCmdE _ _ stB]
    rw [hBtr]; rfl
  set stD := (if (stC.args.os == some "windows") = true
    then setEnvVarStep "ConEmuANSI" "ON" stC else stC) with hD
  have hDargs : stD.args = stB.args := by
    rw [hD]; split
    · rw [setEnvVarStep_args, hCargs]
    · exact hCargs
  have hDab : stD.aborted = none := by
    rw [hD]; split
    · rw [setEnvVarStep_aborted, hCab]
    · exact hCab
  have hDjob : stD.job = some v := by
    rw [hD]; split
    · rw [setEnvVarStep_job, hCjob]
    · exact hCjob
  have hDfil : branchCmds stD.trace = [] := by
    rw [hD]; split
    · rw [show branchCmds ((setEnvVarStep "ConEmuANSI" "ON" stC).trace)
        = branchCmds stC.trace from
        setEnvVarStep_filter isBranchCmdE isCmdE_of_isBranchCmdE _ _ stC]
      exact hCfil
    · exact hCfil
  set stE := cleanWorkspaceStep stD with hE
  have hEargs : stE.args = stB.args := by rw [hE, cleanWorkspaceStep_args, hDargs]
  have hEab : stE.aborted = none := by rw [hE, cleanWorkspaceStep_aborted, hDab]
  have hEjob : stE.job = some v := by rw [hE, cleanWorkspaceStep_job, hDjob]
  have hEfil : branchCmds stE.trace = [] := by
    rw [hE]
    rw [show branchCmds ((cleanWorkspaceStep stD).trace) = branchCmds stD.trace from
      cleanWorkspaceStep_filter isBranchCmdE isCmdE_of_isBranchCmdE stD]
    exact hDfil
  set stF := preStep stE with hF
  have hFargs : stF.args = stB.args := by rw [hF, preStep_args, hEargs]
  have hFab : stF.aborted = none := by rw [hF, preStep_aborted_of_some _ v hEjob, hEab]
  have hFjob : stF.job = some v := by rw [hF, preStep_job, hEjob]
  have hFfil : branchCmds stF.trace = [] := by
    rw [hF]
    rw [show branchCmds ((preStep stE).trace) = branchCmds stE.trace from
      preStep_filter isBranchCmdE isCmdE_of_isBranchCmdE stE]
    exact hEfil
  set stG := showEnvStep stF with hG
  have hGargs : stG.args = stB.args := by rw [hG, showEnvStep_args, hFargs]
  have hGab : stG.aborted = none := by
    rw [hG, showEnvStep_aborted_of_some _ v hFjob, hFab]
  have hGjob : stG.job = some v := by rw [hG, showEnvStep_job, hFjob]
  have hGfil : branchCmds stG.trace = [] := by
    rw [hG]
    rw [show branchCmds ((showEnvStep stF).trace) = branchCmds stF.trace from
      showEnvStep_filter isBranchCmdE isCmdE_of_isBranchCmdE stF]
    exact hFfil
  set stH := (if (stG.args.os != some "linux") = true
    then (jobRun oracle CmdKind.virtualenvInstall
      [stG.sysExe, "-m", "pip", "install", "-U", "virtualenv"] true false stG).2
    else stG) with hH
  have hHargs : stH.args = stB.args := by
    rw [hH]; split
    · rw [jobRun_args, hGargs]
    · exact hGargs
  have hHab : stH.aborted = none := by
    rw [hH]; split
    · exact jobRun_aborted_of_zero _ _ _ _ _ _ hGab (hz _)
    · exact hGab
  have hHjob : stH.job = some v := by
    rw [hH]; split
    · rw [jobRun_job, hGjob]
    · exact hGjob
  have hHfil : branchCmds stH.trace = [] := by
    rw [hH]; split
    · rw [show branchCmds (((jobRun oracle CmdKind.virtualenvInstall
        [stG.sysExe, "-m", "pip", "install", "-U", "virtualenv"] true false stG).2).trace)
        = branchCmds stG.trace from
        jobRun_filter isBranchCmdE oracle CmdKind.virtualenvInstall _ _ _ _
          (fun b py => rfl)]
      exact hGfil
    · exact hGfil
  unfold change_directory
  rw [if_neg (by rw [hHab]; simp)]
  dsimp only
  obtain ⟨vcs, b, py, hmain⟩ := insideWorkspace_br_some oracle fE bf hbf
    ({ stH with cwd := pathJoin stH.cwd stH.args.workspace, trace := stH.trace ++ [Event.enterDir (pathJoin stH.cwd stH.args.workspace)] } : St) v tb
    (by rw [show ({ stH with cwd := pathJoin stH.cwd stH.args.workspace, trace := stH.trace ++ [Event.enterDir (pathJoin stH.cwd stH.args.workspace)] } : St).args = stH.args from rfl, hHargs]; exact hBtb)
    hHab hHjob hz
  refine ⟨vcs, b, py, ?_⟩
  unfold branchCmds at hmain ⊢
  rw [List.filter_append, hmain]
  rw [List.filter_append]
  have he1 : List.filter isBranchCmdE [Event.enterDir (pathJoin stH.cwd stH.args.workspace)]
      = [] := rfl
  have he2 : List.filter isBranchCmdE [Event.exitDir stH.cwd] = [] := rfl
  rw [he1, he2]
  rw [show List.filter isBranchCmdE stH.trace = branchCmds stH.trace from rfl, hHfil]
  simp





/-- C6: with a test-branch override the branch section issues exactly
three branch commands, in order — create the synthetic `__ci_default`
branch (fatal), switch every repository to the target branch
(non-fatal: its status is returned and logged and execution continues
to the rebase), and rebase onto `__ci_default` (fatal, status logged on
success); at full-run level (all commands succeeding) exactly those
three branch commands appear; without a test-branch override none of
the three is ever issued, whatever the exit statuses. -/
theorem test_branch_policy :
    (∀ (oracle : Nat → Nat) (vcs : List String) (st : St) (tb : String),
        st.aborted = none → st.args.test_branch = some tb → oracle st.cmdCount = 0 →
        (branchSteps oracle vcs st).trace = st.trace ++
          [Event.cmd CmdKind.branchCreate st.binding st.python
             (vcs ++ ["custom", ".", "--git", "--args", "checkout", "-b", "__ci_default"])
             true true,
           Event.cmd CmdKind.branchCheckout st.binding st.python
             (vcs ++ ["custom", ".", "--args", "checkout", tb]) false false,
           Event.logStatus CmdKind.branchCheckout (oracle (st.cmdCount + 1)),
           Event.cmd CmdKind.branchRebase st.binding st.python
             (vcs ++ ["custom", ".", "--git", "--args", "rebase", "__ci_default"])
             true false]
          ++ (if oracle (st.cmdCount + 2) = 0
              then [Event.logStatus CmdKind.branchRebase (oracle (st.cmdCount + 2))]
              else [])) ∧
    (∀ (oracle : Nat → Nat) (fE : String → Bool) (cfg : Args)
        (praw sysExe cwd0 : String) (env0 : List (String × String)) (v : OS) (tb : String),
        selectOS cfg.os (strLower praw) = some v → cfg.test_branch = some tb →
        (cfg.do_venv = true → v ≠ OS.windows) → (∀ j, oracle j = 0) →
        ∃ vcs b py, branchCmds ((runFull oracle fE cfg praw sysExe cwd0 env0).2.trace) =
          [Event.cmd CmdKind.branchCreate b py
             (vcs ++ ["custom", ".", "--git", "--args", "checkout", "-b", "__ci_default"])
             true true,
           Event.cmd CmdKind.branchCheckout b py
             (vcs ++ ["custom", ".", "--args", "checkout", tb]) false false,
           Event.cmd CmdKind.branchRebase b py
             (vcs ++ ["custom", ".", "--git", "--args", "rebase", "__ci_default"])
             true false]) ∧
    (∀ (oracle : Nat → Nat) (fE : String → Bool) (cfg : Args)
        (praw sysExe cwd0 : String) (env0 : List (String × String)),
        cfg.test_branch = none →
        branchCmds ((runFull oracle fE cfg praw sysExe cwd0 env0).2.trace) = []) := by
  refine ⟨branchSteps_some_trace, ?_, ?_⟩
  · intro oracle fE cfg praw sysExe cwd0 env0 v tb hsel htb hvw hz
    exact run_branch_some oracle fE (build_and_test oracle) praw
      (initSt cfg sysExe cwd0 env0) v tb (fun s => build_and_test_br oracle s) hsel htb hvw hz
      rfl rfl
  · intro oracle fE cfg praw sysExe cwd0 env0 htb
    have h := run_branch_none oracle fE (build_and_test oracle) praw
      (initSt cfg sysExe cwd0 env0) (fun s => build_and_test_br oracle s) htb
    rw [show branchCmds ((runFull oracle fE cfg praw sysExe cwd0 env0).2.trace)
      = branchCmds (((run oracle fE (build_and_test oracle) praw
        (initSt cfg sysExe cwd0 env0)).2).trace) from rfl, h]
    rfl

/-- C6 witness: a branch section whose branch-switch command fails with
status 5 still logs that status and proceeds to the rebase; a concrete
full run with an override issues exactly the three branch commands; a
run without an override issues none. -/
theorem test_branch_policy_witness :
    (stBranch.aborted = none ∧ stBranch.args.test_branch = some "release-x" ∧
     branchOracle stBranch.cmdCount = 0 ∧
     (branchSteps branchOracle ["vcs"] stBranch).trace = stBranch.trace ++
       [Event.cmd CmdKind.branchCreate stBranch.binding stBranch.python
          (["vcs"] ++ ["custom", ".", "--git", "--args", "checkout", "-b", "__ci_default"])
          true true,
        Event.cmd CmdKind.branchCheckout stBranch.binding stBranch.python
          (["vcs"] ++ ["custom", ".", "--args", "checkout", "release-x"]) false false,
        Event.logStatus CmdKind.branchCheckout (branchOracle (stBranch.cmdCount + 1)),
        Event.cmd CmdKind.branchRebase stBranch.binding stBranch.python
          (["vcs"] ++ ["custom", ".", "--git", "--args", "rebase", "__ci_default"])
          true false]
       ++ (if branchOracle (stBranch.cmdCount + 2) = 0
           then [Event.logStatus CmdKind.branchRebase (branchOracle (stBranch.cmdCount + 2))]
           else [])) ∧
    (∃ vcs b py,
      branchCmds ((runFull (fun _ => 0) (fun _ => false)
          { cfgBase with test_branch := some "release-x" } "Linux-5.15.0" "/usr/bin/python3"
          "/ci" []).2.trace) =
        [Event.cmd CmdKind.branchCreate b py
           (vcs ++ ["custom", ".", "--git", "--args", "checkout", "-b", "__ci_default"])
           true true,
         Event.cmd CmdKind.branchCheckout b py
           (vcs ++ ["custom", ".", "--args", "checkout", "release-x"]) false false,
         Event.cmd CmdKind.branchRebase b py
           (vcs ++ ["custom", ".", "--git", "--args", "rebase", "__ci_default"])
           true false]) ∧
    branchCmds ((runFull testOracle (fun _ => false) cfgBase "Linux-5.15.0" "/usr/bin/python3"
        "/ci" []).2.trace) = [] := by
  refine ⟨⟨rfl, rfl, rfl, ?_⟩, ?_, ?_⟩
  · exact test_branch_policy.1 branchOracle ["vcs"] stBranch "release-x" rfl rfl rfl
  · exact test_branch_policy.2.1 (fun _ => 0) (fun _ => false)
      { cfgBase with test_branch := some "release-x" } "Linux-5.15.0" "/usr/bin/python3"
      "/ci" [] OS.linux "release-x" (by decide) rfl (fun h => by cases h) (fun _ => rfl)
  · exact test_branch_policy.2.2 testOracle (fun _ => false) cfgBase "Linux-5.15.0"
      "/usr/bin/python3" "/ci" [] rfl
